import Mathlib

/-!
# LearnFilament: lifecycle of the macOS demo programs

A shallow embedding of the programs under `macos-demo/`.  Every program is a
straight sequence of calls into the rendering engine (Filament) and the
windowing library (SDL), followed by an event/render loop and a teardown
sequence.  The embedding turns each `main` into a function from an
environment (the results the external calls hand back: which creation calls
succeed, which events are polled in each loop iteration, whether a frame may
begin) to the list of calls the program performs and its exit status.

The animation functions are given twice: read over an ordered field (exact
arithmetic), and as the code computes them in IEEE 754 `float` and `double`, a
floating-point number being kept as the rational number it denotes.
-/

namespace LearnFilament

/-! ## Resources and calls -/

/-- Entity variables of the demos.  `renderable` is the drawn object
(`rectangle`, `renderableEntity`, `renderable`, `cube`), `mesh` is
`mesh.renderable` of a mesh loaded by `MeshReader`. -/
inductive Ent
  | camera
  | renderable
  | light
  | mesh
  deriving DecidableEq, Repr

/-- Objects a program obtains and has to give back.  The first four belong to
the windowing library, `entityId` to the global `utils::EntityManager`, all
others are created through the engine.  `vertexBuffer` and `indexBuffer` also
stand for `mesh.vertexBuffer` and `mesh.indexBuffer` (no program has both a
hand-built and a loaded pair). -/
inductive Res
  | sdl
  | window
  | sdlRenderer
  | metalView
  | engine
  | swapChain
  | renderer
  | scene
  | view
  | skybox
  | vertexBuffer
  | indexBuffer
  | morphTargetBuffer
  | texture
  | material
  | materialInstance
  | entityId (e : Ent)
  | cameraComponent (e : Ent)
  | renderableComponent (e : Ent)
  | lightComponent (e : Ent)
  deriving DecidableEq, Repr

/-- Objects created through the engine (everything the engine owns, the engine
itself excluded). -/
def Res.isEngineObject : Res → Bool
  | .swapChain | .renderer | .scene | .view | .skybox | .vertexBuffer | .indexBuffer
  | .morphTargetBuffer | .texture | .material | .materialInstance => true
  | .cameraComponent _ | .renderableComponent _ | .lightComponent _ => true
  | _ => false

/-- Pixel rectangle of a view: `Viewport{left, bottom, width, height}`. -/
structure Viewport where
  left : Int
  bottom : Int
  width : Nat
  height : Nat
  deriving DecidableEq, Repr

/-- Input events as the programs distinguish them: `SDL_EVENT_QUIT`,
`SDL_EVENT_WINDOW_RESIZED` with `window.data1`, `window.data2`, and every other
event type. -/
inductive Event
  | quit
  | windowResized (data1 data2 : Int)
  | other (type : Nat)
  deriving DecidableEq, Repr

/-- The external calls a program makes.  A call whose result the environment
decides carries that result (`ok = false`: a null pointer or `false` came
back).  `cerr` is a message written to standard error; writes to standard
output and pure getters are not recorded. -/
inductive Call
  | SDL_Init (ok : Bool)
  | SDL_CreateWindow (ok : Bool)
  | SDL_CreateRenderer (ok : Bool)
  | SDL_Metal_CreateView (ok : Bool)
  | SDL_Metal_GetLayer (ok : Bool)
  | SDL_Metal_DestroyView
  | SDL_DestroyRenderer
  | SDL_DestroyWindow
  | SDL_Quit
  | SDL_PollEvent (e : Option Event)
  | SDL_Delay
  | Engine_create (ok : Bool)
  | createSwapChain (ok : Bool)
  | createRenderer (ok : Bool)
  | createScene (ok : Bool)
  | createView (ok : Bool)
  | Skybox_build
  | EntityManager_create (e : Ent)
  | createCamera (e : Ent)
  | VertexBuffer_build
  | IndexBuffer_build
  | MorphTargetBuffer_build
  | Texture_build
  | Material_build (ok : Bool)
  | getDefaultInstance
  | createInstance
  | Renderable_build (e : Ent)
  | Light_build (e : Ent)
  | loadMeshFromBuffer (ok : Bool)
  | ifstream_open (ok : Bool)
  | ifstream_read
  | ifstream_close
  | setSkybox
  | setCamera
  | setScene
  | setViewport (v : Viewport)
  | setProjection
  | setModelMatrix
  | setPostProcessingEnabled
  | setBufferAt
  | setBuffer
  | setPositionsAt
  | setTangentsAt
  | setImage
  | setParameter
  | setMaterialInstanceAt
  | setCastShadows
  | setTransform
  | setMorphWeights
  | addEntity (e : Ent)
  | sceneRemove (e : Ent)
  | setClearOptions
  | beginFrame (ok : Bool)
  | render
  | endFrame
  | destroy (r : Res)
  | destroyEntity (e : Ent)
  | destroyCameraComponent (e : Ent)
  | EntityManager_destroy (e : Ent)
  | Engine_destroy
  | cerr
  deriving Repr

/-- Objects a call hands to the program.  `getDefaultInstance` creates nothing:
the default instance belongs to its material.  `SDL_Metal_GetLayer` returns a
pointer into the Metal view.  `loadMeshFromBuffer` fills
`Mesh{renderable, vertexBuffer, indexBuffer}`. -/
def Call.acquires : Call → List Res
  | .SDL_Init true => [.sdl]
  | .SDL_CreateWindow true => [.window]
  | .SDL_CreateRenderer true => [.sdlRenderer]
  | .SDL_Metal_CreateView true => [.metalView]
  | .Engine_create true => [.engine]
  | .createSwapChain true => [.swapChain]
  | .createRenderer true => [.renderer]
  | .createScene true => [.scene]
  | .createView true => [.view]
  | .Skybox_build => [.skybox]
  | .EntityManager_create e => [.entityId e]
  | .createCamera e => [.cameraComponent e]
  | .VertexBuffer_build => [.vertexBuffer]
  | .IndexBuffer_build => [.indexBuffer]
  | .MorphTargetBuffer_build => [.morphTargetBuffer]
  | .Texture_build => [.texture]
  | .Material_build true => [.material]
  | .createInstance => [.materialInstance]
  | .Renderable_build e => [.renderableComponent e]
  | .Light_build e => [.lightComponent e]
  | .loadMeshFromBuffer true =>
      [.vertexBuffer, .indexBuffer, .entityId .mesh, .renderableComponent .mesh]
  | _ => []

/-- Objects a call gives back.  `Engine::destroy(Entity)` destroys all
engine components of the entity (renderable, light, camera); `SDL_Quit`
shuts down what `SDL_Init` started. -/
def Call.releases : Call → List Res
  | .SDL_Metal_DestroyView => [.metalView]
  | .SDL_DestroyRenderer => [.sdlRenderer]
  | .SDL_DestroyWindow => [.window]
  | .SDL_Quit => [.sdl]
  | .destroy r => [r]
  | .destroyEntity e => [.renderableComponent e, .lightComponent e, .cameraComponent e]
  | .destroyCameraComponent e => [.cameraComponent e]
  | .EntityManager_destroy e => [.entityId e]
  | .Engine_destroy => [.engine]
  | _ => []

/-- All objects obtained along a trace, in order of acquisition. -/
def acquired : List Call → List Res
  | [] => []
  | c :: cs => c.acquires ++ acquired cs

/-- All objects given back along a trace, in order of release. -/
def released : List Call → List Res
  | [] => []
  | c :: cs => c.releases ++ released cs

/-- Objects still held at the end of a trace: obtained and never given back. -/
def leaked (tr : List Call) : List Res :=
  (acquired tr).filter fun r => !(released tr).contains r

/-! ## Environment -/

/-- Input of one loop iteration: the events `SDL_PollEvent` delivers, in
order, before it reports an empty queue, and the answer of
`Renderer::beginFrame`. -/
structure Frame where
  events : List Event
  beginFrame : Bool
  deriving DecidableEq, Repr

/-- Results of the external calls of one program run.  `textureFile` is
`none` when the texture file cannot be opened, else its length in bytes;
`meshFile` tells whether the mesh file opens and `mesh` whether
`loadMeshFromBuffer` yields a renderable. -/
structure Env where
  sdlInit : Bool
  window : Bool
  sdlRenderer : Bool
  metalView : Bool
  metalLayer : Bool
  engine : Bool
  swapChain : Bool
  renderer : Bool
  scene : Bool
  view : Bool
  material : Bool
  meshFile : Bool
  mesh : Bool
  textureFile : Option Nat
  frames : List Frame
  deriving Repr

/-- What a finished program leaves behind: the calls it made and the value
returned from `main`. -/
structure Outcome where
  trace : List Call
  exit : Nat
  deriving Repr

/-! ## The event/render loop written inline in `main`

`01-rectangle` 206-226, `02-cube` 295-327, `02-cube-map` 303-350,
`02-cube-obj` 228-272, `03-morphing` 295-326, `04-pbr` 222-249. -/

/-- The programs of the repository. -/
inductive Program
  | hello
  | rectangle
  | triangle
  | cube
  | cubeMap
  | cubeObj
  | morphing
  | pbr
  deriving DecidableEq, Repr

/-- Variables the loop of an inline demo works on: the flag `running` and the
viewport the view holds (set once, by `setViewport(Viewport{0, 0, 800, 600})`). -/
structure LoopState where
  running : Bool
  viewport : Viewport
  deriving DecidableEq, Repr

/-- Inner loop `while (SDL_PollEvent(&event)) { if (event.type == SDL_EVENT_QUIT)
running = false; }` over the events of one iteration. -/
def pollEvents (s : LoopState) : List Event → LoopState
  | [] => s
  | e :: es => pollEvents (if e = Event.quit then { s with running := false } else s) es

/-- Calls of the inner loop: one successful `SDL_PollEvent` per event, then the
one that reports the empty queue. -/
def pollTrace (es : List Event) : List Call :=
  es.map (fun e => Call.SDL_PollEvent (some e)) ++ [Call.SDL_PollEvent none]

/-- Per-iteration animation update: `setTransform` in the cube, mesh and PBR
demos, `setMorphWeights` in `03-morphing`, nothing in `01-rectangle`. -/
def animation : Program → List Call
  | .cube | .cubeMap | .cubeObj | .pbr => [.setTransform]
  | .morphing => [.setMorphWeights]
  | _ => []

/-- Whether the frame block calls `setClearOptions` before `render`. -/
def clearsEachFrame : Program → Bool
  | .rectangle | .cubeMap | .cubeObj => true
  | _ => false

/-- The block `if (renderer->beginFrame(swapChain)) { ...; renderer->render(view);
renderer->endFrame(); }`. -/
def renderFrame (p : Program) (ok : Bool) : List Call :=
  Call.beginFrame ok ::
    (if ok then (if clearsEachFrame p then [Call.setClearOptions] else []) ++ [.render, .endFrame]
     else [])

/-- One pass through the body of `while (running)`. -/
def frameBody (p : Program) (s : LoopState) (f : Frame) : LoopState × List Call :=
  (pollEvents s f.events, pollTrace f.events ++ animation p ++ renderFrame p f.beginFrame)

/-- The loop `while (running) { ... }`, fed one `Frame` per iteration.  It yields
`none` when the given frames are used up while `running` still holds. -/
def mainLoop (p : Program) : LoopState → List Frame → Option (LoopState × List Call)
  | s, [] => if s.running then none else some (s, [])
  | s, f :: fs =>
      if s.running then
        (mainLoop p (frameBody p s f).1 fs).map fun r => (r.1, (frameBody p s f).2 ++ r.2)
      else some (s, [])

/-- Viewport every inline demo installs before its loop. -/
def initialViewport : Viewport := ⟨0, 0, 800, 600⟩

/-- Loop variables on entry: `bool running = true`. -/
def initialLoopState : LoopState := ⟨true, initialViewport⟩

/-! ## Window bootstrap shared by the inline demos

`01-rectangle` 41-80, `02-cube` 124-169, `02-cube-map` 148-193,
`02-cube-obj` 38-83, `03-morphing` 109-154, `04-pbr` 40-85: the same
statements in all six. -/

/-- SDL initialisation, window, SDL renderer, Metal view and Metal layer.
`error` is an early `return 1` with the calls made so far. -/
def sdlBootstrap (env : Env) : Except Outcome (List Call) :=
  let t := [Call.SDL_Init env.sdlInit]
  if env.sdlInit = false then .error ⟨t ++ [.cerr], 1⟩ else
  let t := t ++ [.SDL_CreateWindow env.window]
  if env.window = false then .error ⟨t ++ [.cerr, .SDL_Quit], 1⟩ else
  let t := t ++ [.SDL_CreateRenderer env.sdlRenderer]
  if env.sdlRenderer = false then .error ⟨t ++ [.cerr, .SDL_DestroyWindow, .SDL_Quit], 1⟩ else
  let t := t ++ [.SDL_Metal_CreateView env.metalView]
  if env.metalView = false then
    .error ⟨t ++ [.cerr, .SDL_DestroyRenderer, .SDL_DestroyWindow, .SDL_Quit], 1⟩ else
  let t := t ++ [.SDL_Metal_GetLayer env.metalLayer]
  if env.metalLayer = false then
    .error ⟨t ++ [.cerr, .SDL_Metal_DestroyView, .SDL_DestroyRenderer, .SDL_DestroyWindow,
      .SDL_Quit], 1⟩ else
  .ok t

/-- Calls of `sdlBootstrap` when all five succeed. -/
def sdlBootstrapOk : List Call :=
  [.SDL_Init true, .SDL_CreateWindow true, .SDL_CreateRenderer true,
   .SDL_Metal_CreateView true, .SDL_Metal_GetLayer true]

/-- Release of the window-system objects at the end of every teardown. -/
def sdlTeardown : List Call :=
  [.SDL_Metal_DestroyView, .SDL_DestroyRenderer, .SDL_DestroyWindow, .SDL_Quit]

/-! ## `macos-demo/main.cpp` -/

namespace Hello

/-- The program `macos-demo/main.cpp`, lines 10-29: engine, renderer and scene
are created and `main` returns without destroying anything. -/
def main (env : Env) : Outcome :=
  let t := [Call.Engine_create env.engine]
  if env.engine = false then ⟨t ++ [.cerr], 1⟩ else
  let t := t ++ [.createRenderer env.renderer]
  if env.renderer = false then ⟨t ++ [.cerr], 1⟩ else
  let t := t ++ [.createScene env.scene]
  if env.scene = false then ⟨t ++ [.cerr], 1⟩ else
  ⟨t, 0⟩

end Hello

/-! ## `01-rectangle/main.cpp` -/

namespace Rectangle

/-- Teardown, lines 231-248. -/
def teardown : List Call :=
  [.destroyEntity .renderable, .EntityManager_destroy .renderable,
   .destroyEntity .camera, .EntityManager_destroy .camera,
   .destroy .materialInstance, .destroy .material,
   .destroy .vertexBuffer, .destroy .indexBuffer,
   .destroy .view, .destroy .scene, .destroy .renderer, .destroy .swapChain,
   .Engine_destroy] ++ sdlTeardown

/-- Core objects, geometry, material, renderable and camera, lines 106-201. -/
def assembly (env : Env) : List Call :=
  [.createRenderer env.renderer, .createScene env.scene, .createView env.view,
   .VertexBuffer_build, .IndexBuffer_build, .setBufferAt, .setBuffer,
   .Material_build env.material, .getDefaultInstance,
   .EntityManager_create .renderable, .Renderable_build .renderable, .addEntity .renderable,
   .EntityManager_create .camera, .createCamera .camera, .setCamera, .setProjection,
   .setScene, .setViewport initialViewport]

/-- The program `01-rectangle/main.cpp`, lines 37-251. -/
def main (env : Env) : Option Outcome :=
  match sdlBootstrap env with
  | .error out => some out
  | .ok t =>
    let t := t ++ [.Engine_create env.engine]
    if env.engine = false then
      some ⟨t ++ [.cerr, .SDL_Metal_DestroyView, .SDL_DestroyRenderer, .SDL_DestroyWindow,
        .SDL_Quit], 1⟩ else
    let t := t ++ [.createSwapChain env.swapChain]
    if env.swapChain = false then
      some ⟨t ++ [.cerr, .Engine_destroy, .SDL_Metal_DestroyView, .SDL_DestroyRenderer,
        .SDL_DestroyWindow, .SDL_Quit], 1⟩ else
    let t := t ++ assembly env
    (mainLoop .rectangle initialLoopState env.frames).map fun r => ⟨t ++ r.2 ++ teardown, 0⟩

end Rectangle

/-! ## `02-cube/main.cpp` -/

namespace Cube

/-- Teardown, lines 333-351. -/
def teardown : List Call :=
  [.destroyEntity .renderable, .EntityManager_destroy .renderable,
   .destroy .material, .destroy .vertexBuffer, .destroy .indexBuffer, .destroy .skybox,
   .destroyCameraComponent .camera, .EntityManager_destroy .camera,
   .destroy .view, .destroy .scene, .destroy .renderer, .destroy .swapChain,
   .Engine_destroy] ++ sdlTeardown

/-- Core objects, skybox, camera, geometry, material and renderable, lines
203-290. -/
def assembly (env : Env) : List Call :=
  [.createRenderer env.renderer, .createScene env.scene, .createView env.view,
   .Skybox_build, .setSkybox,
   .EntityManager_create .camera, .createCamera .camera, .setCamera,
   .VertexBuffer_build, .setBufferAt, .IndexBuffer_build, .setBuffer,
   .Material_build env.material,
   .EntityManager_create .renderable, .getDefaultInstance, .Renderable_build .renderable,
   .addEntity .renderable, .setScene, .setViewport initialViewport, .setProjection,
   .setModelMatrix]

/-- The program `02-cube/main.cpp`, lines 119-354. -/
def main (env : Env) : Option Outcome :=
  match sdlBootstrap env with
  | .error out => some out
  | .ok t =>
    let t := t ++ [.Engine_create env.engine]
    if env.engine = false then
      some ⟨t ++ [.cerr, .SDL_Metal_DestroyView, .SDL_DestroyRenderer, .SDL_DestroyWindow,
        .SDL_Quit], 1⟩ else
    let t := t ++ [.createSwapChain env.swapChain]
    if env.swapChain = false then
      some ⟨t ++ [.cerr, .Engine_destroy, .SDL_Metal_DestroyView, .SDL_DestroyRenderer,
        .SDL_DestroyWindow, .SDL_Quit], 1⟩ else
    let t := t ++ assembly env
    (mainLoop .cube initialLoopState env.frames).map fun r => ⟨t ++ r.2 ++ teardown, 0⟩

end Cube

/-! ## `03-morphing/main.cpp` -/

namespace Morphing

/-- Teardown, lines 332-351. -/
def teardown : List Call :=
  [.destroyEntity .renderable, .EntityManager_destroy .renderable,
   .destroy .material, .destroy .vertexBuffer, .destroy .indexBuffer,
   .destroy .morphTargetBuffer, .destroy .skybox,
   .destroyCameraComponent .camera, .EntityManager_destroy .camera,
   .destroy .view, .destroy .scene, .destroy .renderer, .destroy .swapChain,
   .Engine_destroy] ++ sdlTeardown

/-- Core objects, skybox, camera, geometry, morph targets, material and
renderable, lines 188-290. -/
def assembly (env : Env) : List Call :=
  [.createRenderer env.renderer, .createScene env.scene, .createView env.view,
   .Skybox_build, .setSkybox,
   .EntityManager_create .camera, .createCamera .camera, .setCamera,
   .VertexBuffer_build, .setBufferAt, .IndexBuffer_build, .setBuffer,
   .MorphTargetBuffer_build, .setPositionsAt, .setTangentsAt, .setPositionsAt, .setTangentsAt,
   .Material_build env.material,
   .EntityManager_create .renderable, .getDefaultInstance, .Renderable_build .renderable,
   .addEntity .renderable, .setScene, .setViewport initialViewport, .setProjection]

/-- The program `03-morphing/main.cpp`, lines 104-354. -/
def main (env : Env) : Option Outcome :=
  match sdlBootstrap env with
  | .error out => some out
  | .ok t =>
    let t := t ++ [.Engine_create env.engine]
    if env.engine = false then
      some ⟨t ++ [.cerr, .SDL_Metal_DestroyView, .SDL_DestroyRenderer, .SDL_DestroyWindow,
        .SDL_Quit], 1⟩ else
    let t := t ++ [.createSwapChain env.swapChain]
    if env.swapChain = false then
      some ⟨t ++ [.cerr, .Engine_destroy, .SDL_Metal_DestroyView, .SDL_DestroyRenderer,
        .SDL_DestroyWindow, .SDL_Quit], 1⟩ else
    let t := t ++ assembly env
    (mainLoop .morphing initialLoopState env.frames).map fun r => ⟨t ++ r.2 ++ teardown, 0⟩

end Morphing

/-! ## `04-pbr/main.cpp` -/

namespace Pbr

/-- Teardown, lines 255-274. -/
def teardown : List Call :=
  [.destroyEntity .mesh, .EntityManager_destroy .mesh,
   .destroyEntity .light, .EntityManager_destroy .light,
   .destroy .materialInstance, .destroy .material, .destroy .skybox,
   .destroyCameraComponent .camera, .EntityManager_destroy .camera,
   .destroy .view, .destroy .scene, .destroy .renderer, .destroy .swapChain,
   .Engine_destroy] ++ sdlTeardown

/-- Core objects, skybox, camera, loaded mesh, material instance and light, lines
119-217. -/
def assembly (env : Env) : List Call :=
  [.createRenderer env.renderer, .createScene env.scene, .createView env.view,
   .Skybox_build, .setSkybox,
   .EntityManager_create .camera, .createCamera .camera, .setCamera,
   .loadMeshFromBuffer env.mesh,
   .Material_build env.material, .createInstance,
   .setParameter, .setParameter, .setParameter, .setParameter,
   .setMaterialInstanceAt, .setCastShadows, .setTransform, .addEntity .mesh,
   .EntityManager_create .light, .Light_build .light, .addEntity .light,
   .setScene, .setViewport initialViewport, .setProjection, .setModelMatrix]

/-- The program `04-pbr/main.cpp`, lines 35-277. -/
def main (env : Env) : Option Outcome :=
  match sdlBootstrap env with
  | .error out => some out
  | .ok t =>
    let t := t ++ [.Engine_create env.engine]
    if env.engine = false then
      some ⟨t ++ [.cerr, .SDL_Metal_DestroyView, .SDL_DestroyRenderer, .SDL_DestroyWindow,
        .SDL_Quit], 1⟩ else
    let t := t ++ [.createSwapChain env.swapChain]
    if env.swapChain = false then
      some ⟨t ++ [.cerr, .Engine_destroy, .SDL_Metal_DestroyView, .SDL_DestroyRenderer,
        .SDL_DestroyWindow, .SDL_Quit], 1⟩ else
    let t := t ++ assembly env
    (mainLoop .pbr initialLoopState env.frames).map fun r => ⟨t ++ r.2 ++ teardown, 0⟩

end Pbr

/-! ## `02-cube-map/main.cpp` -/

namespace CubeMap

/-- The function `loadRGBATexture(engine, filename, width, height)`, lines 101-142.
`file` is `none` when the file cannot be opened, else its length in bytes.  The
vector `data` is built with `width * height * 4` elements and `file.read` fills
at most that many, so `data.size()` does not depend on the file.  The result
tells whether a texture (not `nullptr`) is returned. -/
def loadRGBATexture (file : Option Nat) (width height : Nat) : Bool × List Call :=
  match file with
  | none => (false, [.ifstream_open false, .cerr])
  | some _ =>
    let data_size := width * height * 4
    let expectedSize := width * height * 4
    if data_size ≠ expectedSize then
      (false, [.ifstream_open true, .ifstream_read, .ifstream_close, .cerr])
    else
      (true, [.ifstream_open true, .ifstream_read, .ifstream_close, .Texture_build, .setImage])

/-- Teardown, lines 355-373. -/
def teardown : List Call :=
  [.destroyEntity .renderable, .EntityManager_destroy .renderable,
   .destroyEntity .camera, .EntityManager_destroy .camera,
   .destroy .materialInstance, .destroy .material, .destroy .texture,
   .destroy .vertexBuffer, .destroy .indexBuffer,
   .destroy .view, .destroy .scene, .destroy .renderer, .destroy .swapChain,
   .Engine_destroy] ++ sdlTeardown

/-- Core objects and geometry buffers, lines 208-232. -/
def buffers (env : Env) : List Call :=
  [.createRenderer env.renderer, .createScene env.scene, .createView env.view,
   .createSwapChain env.swapChain,
   .VertexBuffer_build, .IndexBuffer_build, .setBufferAt, .setBuffer]

/-- Material, renderable and camera, lines 252-298. -/
def assembly (env : Env) : List Call :=
  [.Material_build env.material, .getDefaultInstance, .setParameter,
   .EntityManager_create .renderable, .Renderable_build .renderable, .addEntity .renderable,
   .EntityManager_create .camera, .createCamera .camera, .setCamera, .setProjection,
   .setModelMatrix, .setScene, .setViewport initialViewport]

/-- The program `02-cube-map/main.cpp`, lines 144-376.  The result of
`createSwapChain` is not tested. -/
def main (env : Env) : Option Outcome :=
  match sdlBootstrap env with
  | .error out => some out
  | .ok t =>
    let t := t ++ [.Engine_create env.engine]
    if env.engine = false then
      some ⟨t ++ [.cerr, .SDL_Metal_DestroyView, .SDL_DestroyWindow, .SDL_Quit], 1⟩ else
    let t := t ++ buffers env
    let texture := loadRGBATexture env.textureFile 200 200
    let t := t ++ texture.2
    if texture.1 = false then
      some ⟨t ++ [.cerr, .Engine_destroy, .SDL_Metal_DestroyView, .SDL_DestroyWindow,
        .SDL_Quit], 1⟩ else
    let t := t ++ assembly env
    (mainLoop .cubeMap initialLoopState env.frames).map fun r => ⟨t ++ r.2 ++ teardown, 0⟩

end CubeMap

/-! ## `02-cube-obj/main.cpp` -/

namespace CubeObj

/-- Texture block, lines 154-187: the texture is built only when the file
opens; otherwise a message is written and the program goes on. -/
def textureBlock (file : Option Nat) : List Call :=
  match file with
  | some _ =>
      [.ifstream_open true, .ifstream_read, .ifstream_close, .Texture_build, .setImage,
       .setParameter]
  | none => [.ifstream_open false, .cerr]

/-- Teardown, lines 278-303, `texture` telling whether the pointer is set. -/
def teardown (texture : Bool) : List Call :=
  [.sceneRemove .mesh, .destroyEntity .mesh] ++
  (if texture then [.destroy .texture] else []) ++
  [.destroy .materialInstance, .destroy .material,
   .destroy .vertexBuffer, .destroy .indexBuffer, .destroy .skybox,
   .destroy .swapChain, .destroy .view, .destroy .scene, .destroy .renderer,
   .destroyCameraComponent .camera, .EntityManager_destroy .camera,
   .Engine_destroy] ++ sdlTeardown

/-- Material, texture, camera and skybox, lines 145-223. -/
def assembly (env : Env) : List Call :=
  [.Material_build env.material, .getDefaultInstance] ++
  textureBlock env.textureFile ++
  [.setMaterialInstanceAt, .addEntity .mesh,
   .EntityManager_create .camera, .createCamera .camera, .setCamera, .setProjection,
   .setModelMatrix, .Skybox_build, .setSkybox, .setScene, .setViewport initialViewport]

/-- The program `02-cube-obj/main.cpp`, lines 34-306.  The result of
`createSwapChain` is not tested. -/
def main (env : Env) : Option Outcome :=
  match sdlBootstrap env with
  | .error out => some out
  | .ok t =>
    let t := t ++ [.Engine_create env.engine]
    if env.engine = false then
      some ⟨t ++ [.cerr, .SDL_Metal_DestroyView, .SDL_DestroyRenderer, .SDL_DestroyWindow,
        .SDL_Quit], 1⟩ else
    let t := t ++ [.createRenderer env.renderer, .createScene env.scene, .createView env.view,
      .createSwapChain env.swapChain, .ifstream_open env.meshFile]
    if env.meshFile = false then
      some ⟨t ++ [.cerr, .Engine_destroy, .SDL_Metal_DestroyView, .SDL_DestroyRenderer,
        .SDL_DestroyWindow, .SDL_Quit], 1⟩ else
    let t := t ++ [.ifstream_read, .ifstream_close, .loadMeshFromBuffer env.mesh]
    if env.mesh = false then
      some ⟨t ++ [.cerr, .Engine_destroy, .SDL_Metal_DestroyView, .SDL_DestroyRenderer,
        .SDL_DestroyWindow, .SDL_Quit], 1⟩ else
    let t := t ++ assembly env
    (mainLoop .cubeObj initialLoopState env.frames).map fun r =>
      ⟨t ++ r.2 ++ teardown env.textureFile.isSome, 0⟩

end CubeObj

/-! ## `01-triangle/main.cpp` -/

/-- Conversion `(uint32_t) x` of an `int`. -/
def toUint32 (x : Int) : Nat := (x % 4294967296).toNat

/-- Members of `class TriangleRenderer` that the event handler and `cleanup`
read: which pointers are set, the stored window size, and the viewport held by
`view`. -/
structure TriangleRenderer where
  engine : Bool
  swapChain : Bool
  metalView : Bool
  sdlRenderer : Bool
  window : Bool
  windowWidth : Int
  windowHeight : Int
  viewport : Viewport
  deriving DecidableEq, Repr

namespace TriangleRenderer

/-- A freshly constructed object: all pointers `nullptr`, size 800 x 600. -/
def new : TriangleRenderer := ⟨false, false, false, false, false, 800, 600, ⟨0, 0, 0, 0⟩⟩

/-- The method `initialize()` (a reserved word here, hence the underscore), lines
76-232: result flag, members afterwards and calls made. -/
def initialize_ (env : Env) (st : TriangleRenderer) : Bool × TriangleRenderer × List Call :=
  let t := [Call.SDL_Init env.sdlInit]
  if env.sdlInit = false then (false, st, t ++ [.cerr]) else
  let t := t ++ [.SDL_CreateWindow env.window]
  let st := { st with window := env.window }
  if env.window = false then (false, st, t ++ [.cerr]) else
  let t := t ++ [.SDL_CreateRenderer env.sdlRenderer]
  let st := { st with sdlRenderer := env.sdlRenderer }
  if env.sdlRenderer = false then (false, st, t ++ [.cerr]) else
  let t := t ++ [.Engine_create env.engine]
  let st := { st with engine := env.engine }
  if env.engine = false then (false, st, t ++ [.cerr]) else
  let t := t ++ [.SDL_Metal_CreateView env.metalView]
  let st := { st with metalView := env.metalView }
  if env.metalView = false then (false, st, t ++ [.cerr]) else
  let t := t ++ [.SDL_Metal_GetLayer env.metalLayer]
  if env.metalLayer = false then (false, st, t ++ [.cerr]) else
  let t := t ++ [.createSwapChain env.swapChain]
  let st := { st with swapChain := env.swapChain }
  if env.swapChain = false then (false, st, t ++ [.cerr]) else
  let t := t ++ [.createRenderer env.renderer]
  if env.renderer = false then (false, st, t ++ [.cerr]) else
  let t := t ++ [.createScene env.scene]
  if env.scene = false then (false, st, t ++ [.cerr]) else
  let t := t ++ [.createView env.view]
  if env.view = false then (false, st, t ++ [.cerr]) else
  let t := t ++ [.EntityManager_create .camera, .createCamera .camera, .setCamera,
    .Skybox_build, .setSkybox, .setPostProcessingEnabled,
    .VertexBuffer_build, .setBufferAt, .IndexBuffer_build, .setBuffer,
    .Material_build env.material]
  if env.material = false then (false, st, t ++ [.cerr]) else
  let viewport : Viewport := ⟨0, 0, toUint32 st.windowWidth, toUint32 st.windowHeight⟩
  let t := t ++ [.getDefaultInstance, .EntityManager_create .renderable,
    .Renderable_build .renderable, .addEntity .renderable, .setScene, .setViewport viewport]
  (true, { st with viewport := viewport }, t)

/-- The method `render()`, lines 234-257. -/
def render (ok : Bool) : List Call :=
  [.setProjection, .setTransform, .beginFrame ok] ++ (if ok then [.render, .endFrame] else [])

/-- The method `handleEvents()`, lines 259-273, over the events the queue holds:
result flag, members afterwards and calls made. -/
def handleEvents (st : TriangleRenderer) : List Event → Bool × TriangleRenderer × List Call
  | [] => (true, st, [.SDL_PollEvent none])
  | .quit :: _ => (false, st, [.SDL_PollEvent (some .quit)])
  | .windowResized data1 data2 :: es =>
      let viewport : Viewport := ⟨0, 0, toUint32 data1, toUint32 data2⟩
      let r := handleEvents
        { st with windowWidth := data1, windowHeight := data2, viewport := viewport } es
      (r.1, r.2.1,
        [.SDL_PollEvent (some (.windowResized data1 data2)), .setViewport viewport] ++ r.2.2)
  | .other type :: es =>
      let r := handleEvents st es
      (r.1, r.2.1, Call.SDL_PollEvent (some (.other type)) :: r.2.2)

/-- The method `cleanup()`, lines 275-307. -/
def cleanup (st : TriangleRenderer) : List Call :=
  (if st.engine then
    [.destroy .skybox, .destroyEntity .renderable, .destroy .materialInstance,
     .destroy .material, .destroy .vertexBuffer, .destroy .indexBuffer,
     .destroyCameraComponent .camera, .EntityManager_destroy .camera,
     .destroy .view, .destroy .scene, .destroy .renderer] ++
    (if st.swapChain then [.destroy .swapChain] else []) ++ [.Engine_destroy]
   else []) ++
  (if st.metalView then [.SDL_Metal_DestroyView] else []) ++
  (if st.sdlRenderer then [.SDL_DestroyRenderer] else []) ++
  (if st.window then [.SDL_DestroyWindow] else []) ++ [.SDL_Quit]

/-- The method `run()`, lines 309-314, fed one `Frame` per call of `handleEvents`.  It
yields `none` when the given frames are used up before `handleEvents` returns
`false`. -/
def run (st : TriangleRenderer) : List Frame → Option (TriangleRenderer × List Call)
  | [] => none
  | f :: fs =>
      if (handleEvents st f.events).1 then
        (run (handleEvents st f.events).2.1 fs).map fun r =>
          (r.1, (handleEvents st f.events).2.2 ++ render f.beginFrame ++ [.SDL_Delay] ++ r.2)
      else some ((handleEvents st f.events).2.1, (handleEvents st f.events).2.2)

end TriangleRenderer

namespace Triangle

/-- The program `01-triangle/main.cpp`, lines 317-331. -/
def main (env : Env) : Option Outcome :=
  let r := TriangleRenderer.initialize_ env TriangleRenderer.new
  if r.1 = false then some ⟨r.2.2 ++ [.cerr], 1⟩ else
  (TriangleRenderer.run r.2.1 env.frames).map fun q =>
    ⟨r.2.2 ++ q.2 ++ TriangleRenderer.cleanup q.1, 0⟩

end Triangle

/-- The `main` of each program.  `macos-demo/main.cpp` has no loop and always
returns. -/
def Program.main : Program → Env → Option Outcome
  | .hello => fun env => some (Hello.main env)
  | .rectangle => Rectangle.main
  | .triangle => Triangle.main
  | .cube => Cube.main
  | .cubeMap => CubeMap.main
  | .cubeObj => CubeObj.main
  | .morphing => Morphing.main
  | .pbr => Pbr.main

/-! ## Animation functions -/

/-- The C function `fmod(x, y)`: `x` minus `y` times the quotient `x / y` truncated
towards zero. -/
def fmod {K : Type} [LinearOrderedField K] [FloorRing K] (x y : K) : K :=
  x - y * (if 0 ≤ x / y then (⌊x / y⌋ : K) else (⌈x / y⌉ : K))

/-- Two-stage rotation of `02-cube-map` (lines 322-334) and `02-cube-obj` (lines
247-257): the pair `(horizontalRotation, verticalRotation)` for elapsed time
`time` in seconds.  `M_PI` is the constant of that name.  The formulas are read over
exact arithmetic here; `twoStageRotationFloat` below rounds as the code does. -/
def twoStageRotation {K : Type} [LinearOrderedField K] [FloorRing K] (M_PI time : K) : K × K :=
  let rotationTime := fmod time 16
  if rotationTime < 8 then ((rotationTime / 8) * 2 * M_PI, 0)
  else (2 * M_PI, ((rotationTime - 8) / 8) * 2 * M_PI)

/-- Morph weight of `03-morphing`, line 314: `sin(time) / 2.0f + 0.5f`, with the
library function `sin` as a parameter.  The formula is read over exact arithmetic
here; `morphWeightFloat` below rounds as the code does. -/
def morphWeight {K : Type} [Field K] (sin : K → K) (time : K) : K :=
  sin time / 2 + 1 / 2

/-- The array `weights[] = {1.0f - morphWeight, morphWeight}` of `03-morphing`, line
315, passed to `setMorphWeights`, read over exact arithmetic; `weightsFloat` below
rounds as the code does. -/
def weights {K : Type} [Field K] (sin : K → K) (time : K) : K × K :=
  (1 - morphWeight sin time, morphWeight sin time)

/-! ## The animation functions in floating point

The code computes the animation in `float` (IEEE 754 binary32).  Where the `double`
constant `M_PI` or a `double` library result enters an expression, that operation
is carried out in `double` (binary64), and the result is narrowed when it is stored
in a `float`.  A floating-point number is kept as the rational number it denotes,
and an operation is the exact operation followed by rounding to nearest, ties to
even, to the type of the operation (no excess precision, no fused operations).
Overflow, infinities and NaN are not modelled: the values handled here stay below
`2 ^ 25` in absolute value. -/

/-- Nearest integer to `q`, a tie going to the even neighbour. -/
def roundHalfEven (q : ℚ) : ℤ :=
  if q - ⌊q⌋ < 1 / 2 then ⌊q⌋
  else if 1 / 2 < q - ⌊q⌋ then ⌊q⌋ + 1
  else if ⌊q⌋ % 2 = 0 then ⌊q⌋ else ⌊q⌋ + 1

/-- Distance between neighbouring numbers, around `x ≠ 0`, of the binary format with
`prec` significant bits and least exponent `emin`: `2 ^ (e - (prec - 1))` where
`2 ^ e ≤ |x| < 2 ^ (e + 1)`, with `emin` in place of `e` for smaller `|x|` (the
subnormal range). -/
def ulp (prec : ℕ) (emin : ℤ) (x : ℚ) : ℚ :=
  2 ^ (max (Int.log 2 |x|) emin - (prec - 1))

/-- Rounding to nearest, ties to even, in the binary format with `prec` significant
bits and least exponent `emin`. -/
def roundBinary (prec : ℕ) (emin : ℤ) (x : ℚ) : ℚ :=
  if x = 0 then 0 else roundHalfEven (x / ulp prec emin x) * ulp prec emin x

/-- Rounding to `float`: 24 significant bits, least exponent -126. -/
def toFloat (x : ℚ) : ℚ := roundBinary 24 (-126) x

/-- Rounding to `double`: 53 significant bits, least exponent -1022. -/
def toDouble (x : ℚ) : ℚ := roundBinary 53 (-1022) x

/-- The constant `M_PI` of `<math.h>`: the decimal expansion of π given there, read as
a `double`. -/
def M_PI : ℚ := toDouble 3.14159265358979323846264338327950288

/-- The variable `time` of the loops, `float time = duration.count() / 1000.0f`, for a
count of `count` milliseconds: the count is converted to `float` and divided by
`1000.0f`. -/
def time (count : ℕ) : ℚ := toFloat (toFloat count / 1000)

/-- Two-stage rotation of `02-cube-map` (lines 322-334) and `02-cube-obj` (lines
247-257) as the code computes it: the pair `(horizontalRotation, verticalRotation)`
stored for the `float` value `time`.  `fmod` is exact; division by `8.0f` and
multiplication by `2.0f` are `float` operations; the multiplication by `M_PI` is a
`double` operation, whose result is narrowed to `float` by the assignment; in
`2.0f * M_PI` the factor `2.0f` is converted to `double` first. -/
def twoStageRotationFloat (time : ℚ) : ℚ × ℚ :=
  let rotationTime := toFloat (fmod time 16)
  if rotationTime < 8 then
    (toFloat (toDouble (toFloat (toFloat (rotationTime / 8) * 2) * M_PI)), 0)
  else
    (toFloat (toDouble (2 * M_PI)),
     toFloat (toDouble (toFloat (toFloat (toFloat (rotationTime - 8) / 8) * 2) * M_PI)))

/-- Morph weight of `03-morphing`, line 314, as the code computes it:
`(float)(sin(time) / 2.0f + 0.5f)`.  `sin` is the library function the call resolves
to and `fl` the rounding of its result type, in which the division and the addition
are carried out: `toDouble` for `double sin(double)` of `<math.h>`, `toFloat` where
`<cmath>` provides the overload `float sin(float)`. -/
def morphWeightFloat (fl : ℚ → ℚ) (sin : ℚ → ℚ) (time : ℚ) : ℚ :=
  toFloat (fl (fl (sin time / 2) + 1 / 2))

/-- The array `weights[] = {1.0f - morphWeight, morphWeight}` of `03-morphing`, line
315, as the code computes it: the subtraction is a `float` operation. -/
def weightsFloat (fl : ℚ → ℚ) (sin : ℚ → ℚ) (time : ℚ) : ℚ × ℚ :=
  (toFloat (1 - morphWeightFloat fl sin time), morphWeightFloat fl sin time)

/-! ## Colour packing, vertex data and buffer declarations

Floating-point literals are taken at their decimal value; of the canonical
32-bit integers only the bit pattern is kept (a natural number below `2 ^ 32`). -/

/-- Attribute types the demos pass to `VertexBuffer::Builder::attribute`. -/
inductive AttributeType
  | FLOAT2
  | FLOAT3
  | UBYTE4
  deriving DecidableEq, Repr

/-- Bytes one attribute of the given type occupies. -/
def AttributeType.size : AttributeType → Nat
  | .FLOAT2 => 8
  | .FLOAT3 => 12
  | .UBYTE4 => 4

/-- Vertex attributes the demos declare. -/
inductive VertexAttribute
  | POSITION
  | COLOR
  | UV0
  deriving DecidableEq, Repr

/-- One call `.attribute(attribute, bufferIndex, type, byteOffset, byteStride)`. -/
structure Attribute where
  vertexAttribute : VertexAttribute
  bufferIndex : Nat
  type : AttributeType
  byteOffset : Nat
  byteStride : Nat
  deriving DecidableEq, Repr

/-- Member types of the `Vertex` structs. -/
inductive MemberType
  | float2
  | float3
  | uint32_t
  deriving DecidableEq, Repr

/-- The operator `sizeof` on a member type. -/
def MemberType.sizeof : MemberType → Nat
  | .float2 => 8
  | .float3 => 12
  | .uint32_t => 4

/-- The operator `sizeof` on a struct whose members are all made of 4-byte scalars
(`float`, `uint32_t`): the members follow each other without padding. -/
def sizeofStruct (members : List MemberType) : Nat :=
  (members.map MemberType.sizeof).sum

/-- The operator `sizeof` on `uint16_t`, the element type of every index array. -/
def sizeofIndex : Nat := 2

/-- What a demo tells the engine about its hand-written geometry: the arguments of
`vertexCount`, `attribute`, `indexCount`, the byte sizes given to the two
buffer descriptors, the range given to `geometry()` when there is one, and the
arrays themselves (declared length of the vertex array, members of its element
type, the index array). -/
structure Geometry where
  vertexCount : Nat
  attributes : List Attribute
  members : List MemberType
  vertexArrayLength : Nat
  vertexBytes : Nat
  indexCount : Nat
  indices : List Nat
  indexBytes : Nat
  range : Option (Nat × Nat)
  deriving Repr

namespace Rectangle

/-- The function `makeColor`, lines 33-35: each component is converted to `uint32_t`,
shifted and combined with bitwise or. -/
def makeColor (r g b a : Nat) : Nat :=
  ((a <<< 24) % 4294967296) ||| ((b <<< 16) % 4294967296) ||| ((g <<< 8) % 4294967296) ||| r

/-- The type `struct Vertex`, lines 114-117. -/
structure Vertex where
  position : ℚ × ℚ
  color : Nat
  deriving DecidableEq, Repr

/-- The array `vertices`, lines 120-129. -/
def vertices : List Vertex :=
  [⟨(-1/2, -3/10), makeColor 255 165 0 255⟩,
   ⟨(1/2, -3/10), makeColor 255 165 0 255⟩,
   ⟨(1/2, 3/10), makeColor 255 165 0 255⟩,
   ⟨(-1/2, 3/10), makeColor 255 165 0 255⟩]

/-- The array `indices`, lines 132-135. -/
def indices : List Nat := [0, 1, 2, 0, 2, 3]

end Rectangle

namespace Triangle

/-- The type `struct Vertex`, lines 30-33, with coordinates in `K`. -/
structure Vertex (K : Type) where
  position : K × K
  color : Nat

/-- The array `TRIANGLE_VERTICES[3]`, lines 36-40, with the library functions `cos`,
`sin` and the constant `M_PI` as parameters. -/
def TRIANGLE_VERTICES {K : Type} [Field K] (cos sin : K → K) (M_PI : K) : List (Vertex K) :=
  [⟨(1, 0), 0xffff0000⟩,
   ⟨(cos (M_PI * 2 / 3), sin (M_PI * 2 / 3)), 0xff00ff00⟩,
   ⟨(cos (M_PI * 4 / 3), sin (M_PI * 4 / 3)), 0xff0000ff⟩]

/-- The array `TRIANGLE_INDICES[3]`, line 42. -/
def TRIANGLE_INDICES : List Nat := [0, 1, 2]

/-- Buffer declarations of `initialize()`, lines 172-191, and the range of line 213. -/
def geometry : Geometry :=
  { vertexCount := 3
    attributes := [⟨.POSITION, 0, .FLOAT2, 0, 12⟩, ⟨.COLOR, 0, .UBYTE4, 8, 12⟩]
    members := [.float2, .uint32_t]
    vertexArrayLength := 3
    vertexBytes := 36
    indexCount := 3
    indices := TRIANGLE_INDICES
    indexBytes := 6
    range := some (0, 3) }

end Triangle

namespace Cube

/-- The function `makeColor`, lines 49-51: `(a << 24) | (r << 16) | (g << 8) | b`.  The
operands are promoted to `int`; each shift is kept as a 32-bit pattern, and the
result is returned as `uint32_t`. -/
def makeColor (r g b a : Nat) : Nat :=
  ((a <<< 24) % 4294967296) ||| ((r <<< 16) % 4294967296) ||| ((g <<< 8) % 4294967296) ||| b

/-- The type `struct Vertex`, lines 40-43. -/
structure Vertex where
  position : ℚ × ℚ × ℚ
  color : Nat
  deriving DecidableEq, Repr

/-- The array `CUBE_VERTICES[24]`, lines 59-95. -/
def CUBE_VERTICES : List Vertex :=
  [⟨(-1/2, -1/2, 1/2), makeColor 255 0 0 255⟩,
   ⟨(1/2, -1/2, 1/2), makeColor 255 0 0 255⟩,
   ⟨(1/2, 1/2, 1/2), makeColor 255 0 0 255⟩,
   ⟨(-1/2, 1/2, 1/2), makeColor 255 0 0 255⟩,
   ⟨(-1/2, -1/2, -1/2), makeColor 0 255 0 255⟩,
   ⟨(1/2, -1/2, -1/2), makeColor 0 255 0 255⟩,
   ⟨(1/2, 1/2, -1/2), makeColor 0 255 0 255⟩,
   ⟨(-1/2, 1/2, -1/2), makeColor 0 255 0 255⟩,
   ⟨(-1/2, -1/2, -1/2), makeColor 0 0 255 255⟩,
   ⟨(-1/2, -1/2, 1/2), makeColor 0 0 255 255⟩,
   ⟨(-1/2, 1/2, 1/2), makeColor 0 0 255 255⟩,
   ⟨(-1/2, 1/2, -1/2), makeColor 0 0 255 255⟩,
   ⟨(1/2, -1/2, -1/2), makeColor 255 255 0 255⟩,
   ⟨(1/2, -1/2, 1/2), makeColor 255 255 0 255⟩,
   ⟨(1/2, 1/2, 1/2), makeColor 255 255 0 255⟩,
   ⟨(1/2, 1/2, -1/2), makeColor 255 255 0 255⟩,
   ⟨(-1/2, -1/2, -1/2), makeColor 255 0 255 255⟩,
   ⟨(1/2, -1/2, -1/2), makeColor 255 0 255 255⟩,
   ⟨(1/2, -1/2, 1/2), makeColor 255 0 255 255⟩,
   ⟨(-1/2, -1/2, 1/2), makeColor 255 0 255 255⟩,
   ⟨(-1/2, 1/2, -1/2), makeColor 0 255 255 255⟩,
   ⟨(1/2, 1/2, -1/2), makeColor 0 255 255 255⟩,
   ⟨(1/2, 1/2, 1/2), makeColor 0 255 255 255⟩,
   ⟨(-1/2, 1/2, 1/2), makeColor 0 255 255 255⟩]

/-- The array `CUBE_INDICES[36]`, lines 104-117. -/
def CUBE_INDICES : List Nat :=
  [0, 1, 2, 0, 2, 3,
   4, 6, 5, 4, 7, 6,
   8, 9, 10, 8, 10, 11,
   12, 14, 13, 12, 15, 14,
   16, 17, 18, 16, 18, 19,
   20, 22, 21, 20, 23, 22]

/-- Buffer declarations of lines 226-245 and the range of line 262. -/
def geometry : Geometry :=
  { vertexCount := 24
    attributes := [⟨.POSITION, 0, .FLOAT3, 0, 16⟩, ⟨.COLOR, 0, .UBYTE4, 12, 16⟩]
    members := [.float3, .uint32_t]
    vertexArrayLength := 24
    vertexBytes := 384
    indexCount := 36
    indices := CUBE_INDICES
    indexBytes := 72
    range := some (0, 36) }

end Cube

namespace Morphing

/-- The function `makeColor`, lines 49-51, the same text as in `02-cube`. -/
def makeColor (r g b a : Nat) : Nat :=
  ((a <<< 24) % 4294967296) ||| ((r <<< 16) % 4294967296) ||| ((g <<< 8) % 4294967296) ||| b

/-- The type `struct Vertex`, lines 40-43. -/
structure Vertex where
  position : ℚ × ℚ
  color : Nat
  deriving DecidableEq, Repr

/-- The array `TRIANGLE_VERTICES[3]`, lines 60-64. -/
def TRIANGLE_VERTICES : List Vertex :=
  [⟨(1, 0), makeColor 255 0 0 255⟩,
   ⟨(-1/2, 433/500), makeColor 0 255 0 255⟩,
   ⟨(-1/2, -433/500), makeColor 0 0 255 255⟩]

/-- The array `TRIANGLE_INDICES[3]`, line 102. -/
def TRIANGLE_INDICES : List Nat := [0, 1, 2]

/-- Buffer declarations of lines 211-230 and the range of line 265. -/
def geometry : Geometry :=
  { vertexCount := 3
    attributes := [⟨.POSITION, 0, .FLOAT2, 0, 12⟩, ⟨.COLOR, 0, .UBYTE4, 8, 12⟩]
    members := [.float2, .uint32_t]
    vertexArrayLength := 3
    vertexBytes := 36
    indexCount := 3
    indices := TRIANGLE_INDICES
    indexBytes := 6
    range := some (0, 3) }

end Morphing

namespace Rectangle

/-- Buffer declarations of lines 140-157; `sizeof(vertices)` and `sizeof(indices)` are
the descriptor sizes, and `geometry()` is called without a range (line 177). -/
def geometry : Geometry :=
  { vertexCount := 4
    attributes := [⟨.POSITION, 0, .FLOAT2, 0, 12⟩, ⟨.COLOR, 0, .UBYTE4, 8, 12⟩]
    members := [.float2, .uint32_t]
    vertexArrayLength := vertices.length
    vertexBytes := vertices.length * sizeofStruct [.float2, .uint32_t]
    indexCount := 6
    indices := indices
    indexBytes := indices.length * sizeofIndex
    range := none }

end Rectangle

namespace CubeMap

/-- The type `struct Vertex`, lines 35-38. -/
structure Vertex where
  position : ℚ × ℚ × ℚ
  uv : ℚ × ℚ
  deriving DecidableEq, Repr

/-- The array `CUBE_VERTICES[]`, lines 46-82. -/
def CUBE_VERTICES : List Vertex :=
  [⟨(-1/2, -1/2, 1/2), (0, 0)⟩,
   ⟨(1/2, -1/2, 1/2), (1, 0)⟩,
   ⟨(1/2, 1/2, 1/2), (1, 1)⟩,
   ⟨(-1/2, 1/2, 1/2), (0, 1)⟩,
   ⟨(-1/2, -1/2, -1/2), (0, 0)⟩,
   ⟨(1/2, -1/2, -1/2), (1, 0)⟩,
   ⟨(1/2, 1/2, -1/2), (1, 1)⟩,
   ⟨(-1/2, 1/2, -1/2), (0, 1)⟩,
   ⟨(1/2, -1/2, -1/2), (0, 0)⟩,
   ⟨(1/2, -1/2, 1/2), (1, 0)⟩,
   ⟨(1/2, 1/2, 1/2), (1, 1)⟩,
   ⟨(1/2, 1/2, -1/2), (0, 1)⟩,
   ⟨(-1/2, -1/2, -1/2), (0, 0)⟩,
   ⟨(-1/2, -1/2, 1/2), (1, 0)⟩,
   ⟨(-1/2, 1/2, 1/2), (1, 1)⟩,
   ⟨(-1/2, 1/2, -1/2), (0, 1)⟩,
   ⟨(-1/2, 1/2, -1/2), (0, 0)⟩,
   ⟨(1/2, 1/2, -1/2), (1, 0)⟩,
   ⟨(1/2, 1/2, 1/2), (1, 1)⟩,
   ⟨(-1/2, 1/2, 1/2), (0, 1)⟩,
   ⟨(-1/2, -1/2, -1/2), (0, 0)⟩,
   ⟨(1/2, -1/2, -1/2), (1, 0)⟩,
   ⟨(1/2, -1/2, 1/2), (1, 1)⟩,
   ⟨(-1/2, -1/2, 1/2), (0, 1)⟩]

/-- The array `CUBE_INDICES[]`, lines 85-98. -/
def CUBE_INDICES : List Nat :=
  [0, 1, 2, 0, 2, 3,
   4, 5, 6, 4, 6, 7,
   8, 9, 10, 8, 10, 11,
   12, 13, 14, 12, 14, 15,
   16, 17, 18, 16, 18, 19,
   20, 21, 22, 20, 22, 23]

/-- Buffer declarations of lines 216-232; `sizeof(CUBE_VERTICES)` and
`sizeof(CUBE_INDICES)` are the descriptor sizes, and `geometry()` is called without a
range (line 272). -/
def geometry : Geometry :=
  { vertexCount := 24
    attributes := [⟨.POSITION, 0, .FLOAT3, 0, 20⟩, ⟨.UV0, 0, .FLOAT2, 12, 20⟩]
    members := [.float3, .float2]
    vertexArrayLength := CUBE_VERTICES.length
    vertexBytes := CUBE_VERTICES.length * sizeofStruct [.float3, .float2]
    indexCount := 36
    indices := CUBE_INDICES
    indexBytes := CUBE_INDICES.length * sizeofIndex
    range := none }

end CubeMap

/-! ## Vocabulary of the statements -/

/-- In trace `tr` the object `r` is given back exactly once, the engine is
destroyed exactly once, and `r` goes first. -/
@[reducible] def destroyedOnceBeforeEngine (tr : List Call) (r : Res) : Prop :=
  (released tr).count r = 1 ∧ (released tr).count Res.engine = 1 ∧
    (released tr).indexOf r < (released tr).indexOf Res.engine

/-- Whether one of the tests a program makes on the results of its creation
calls and file openings fails, so that it returns before its loop. -/
def earlyReturn : Program → Env → Bool
  | .hello, env => !env.engine || !env.renderer || !env.scene
  | .triangle, env =>
      !env.sdlInit || !env.window || !env.sdlRenderer || !env.engine || !env.metalView ||
      !env.metalLayer || !env.swapChain || !env.renderer || !env.scene || !env.view ||
      !env.material
  | .cubeMap, env =>
      !env.sdlInit || !env.window || !env.sdlRenderer || !env.metalView || !env.metalLayer ||
      !env.engine || env.textureFile.isNone
  | .cubeObj, env =>
      !env.sdlInit || !env.window || !env.sdlRenderer || !env.metalView || !env.metalLayer ||
      !env.engine || !env.meshFile || !env.mesh
  | _, env =>
      !env.sdlInit || !env.window || !env.sdlRenderer || !env.metalView || !env.metalLayer ||
      !env.engine || !env.swapChain

/-- Calls a program makes before its loop on a run that passes all its tests. -/
def Program.setup : Program → Env → List Call
  | .hello, _ => [.Engine_create true, .createRenderer true, .createScene true]
  | .rectangle, env =>
      sdlBootstrapOk ++ [.Engine_create true, .createSwapChain true] ++ Rectangle.assembly env
  | .triangle, env => (TriangleRenderer.initialize_ env TriangleRenderer.new).2.2
  | .cube, env =>
      sdlBootstrapOk ++ [.Engine_create true, .createSwapChain true] ++ Cube.assembly env
  | .cubeMap, env =>
      sdlBootstrapOk ++ [.Engine_create true] ++ CubeMap.buffers env ++
        (CubeMap.loadRGBATexture env.textureFile 200 200).2 ++ CubeMap.assembly env
  | .cubeObj, env =>
      sdlBootstrapOk ++ [.Engine_create true] ++
        [.createRenderer env.renderer, .createScene env.scene, .createView env.view,
         .createSwapChain env.swapChain, .ifstream_open true, .ifstream_read, .ifstream_close,
         .loadMeshFromBuffer true] ++ CubeObj.assembly env
  | .morphing, env =>
      sdlBootstrapOk ++ [.Engine_create true, .createSwapChain true] ++ Morphing.assembly env
  | .pbr, env =>
      sdlBootstrapOk ++ [.Engine_create true, .createSwapChain true] ++ Pbr.assembly env

/-- Teardown sequence a windowed demo runs after its loop. -/
def Program.teardown : Program → Env → List Call
  | .hello, _ => []
  | .rectangle, _ => Rectangle.teardown
  | .triangle, _ =>
      TriangleRenderer.cleanup { TriangleRenderer.new with
        engine := true, swapChain := true, metalView := true, sdlRenderer := true,
        window := true }
  | .cube, _ => Cube.teardown
  | .cubeMap, _ => CubeMap.teardown
  | .cubeObj, env => CubeObj.teardown env.textureFile.isSome
  | .morphing, _ => Morphing.teardown
  | .pbr, _ => Pbr.teardown

/-- Calls of the event/render loop of a program that has passed all its tests,
on the frames of `env`; `none` when the loop does not end on these frames.
`macos-demo/main.cpp` has no loop. -/
def Program.loop (p : Program) (env : Env) : Option (List Call) :=
  match p with
  | .hello => some []
  | .triangle =>
      (TriangleRenderer.run ⟨true, true, true, true, true, 800, 600, initialViewport⟩
        env.frames).map fun r => r.2
  | _ => (mainLoop p initialLoopState env.frames).map fun r => r.2

/-- Recogniser of the three frame calls `beginFrame`, `render`, `endFrame`. -/
def Call.isFrameCall : Call → Bool
  | .beginFrame _ | .render | .endFrame => true
  | _ => false

/-- Recogniser of `View::setViewport`. -/
def Call.isSetViewport : Call → Bool
  | .setViewport _ => true
  | _ => false

/-- Recogniser of a message on standard error. -/
def Call.isCerr : Call → Bool
  | .cerr => true
  | _ => false

/-- Objects of the windowing library: what `SDL_Init`, `SDL_CreateWindow`,
`SDL_CreateRenderer` and `SDL_Metal_CreateView` hand out. -/
def Res.isWindowSystem : Res → Bool
  | .sdl | .window | .sdlRenderer | .metalView => true
  | _ => false

/-- Releases of a run up to, and not including, the destruction of the engine. -/
def beforeEngine (tr : List Call) : List Res :=
  (released tr).takeWhile fun r => r != Res.engine

/-- Releases of a run from the destruction of the engine on. -/
def fromEngine (tr : List Call) : List Res :=
  (released tr).dropWhile fun r => r != Res.engine

/-- Byte number `i` of `x`, counted from the least significant one. -/
def byteAt (x i : Nat) : Nat := (x >>> (8 * i)) % 256

/-- The four vertices `4k .. 4k+3` of `CUBE_VERTICES` in `02-cube`. -/
def Cube.face (k : Nat) : List Cube.Vertex :=
  (Cube.CUBE_VERTICES.drop (4 * k)).take 4

/-- Colour of the first vertex of face `k` in `02-cube`. -/
def Cube.faceColor (k : Nat) : Nat :=
  ((Cube.face k).map Cube.Vertex.color).headD 0

/-- Plane the comment above face `k` of `CUBE_VERTICES` in `02-cube` names: front
`z = 0.5`, back `z = -0.5`, left `x = -0.5`, right `x = 0.5`, bottom `y = -0.5`,
top `y = 0.5`. -/
def Cube.inFacePlane (k : Nat) (v : Cube.Vertex) : Bool :=
  match k with
  | 0 => v.position.2.2 == 1/2
  | 1 => v.position.2.2 == -1/2
  | 2 => v.position.1 == -1/2
  | 3 => v.position.1 == 1/2
  | 4 => v.position.2.1 == -1/2
  | _ => v.position.2.1 == 1/2

/-- The byte sizes, stride and offsets of a geometry declaration fit together:
each descriptor size is element count times element size, every attribute is
declared with the size of the vertex struct as stride and ends within it. -/
@[reducible] def Geometry.sizesConsistent (g : Geometry) : Prop :=
  g.vertexBytes = g.vertexArrayLength * sizeofStruct g.members ∧
  g.indexBytes = g.indices.length * sizeofIndex ∧
  ∀ a ∈ g.attributes,
    a.byteStride = sizeofStruct g.members ∧ a.byteOffset + a.type.size ≤ a.byteStride

/-- An environment in which every creation call succeeds and every file opens
(the texture file holding 200 x 200 x 4 bytes), with the given loop input. -/
def Env.allOk (frames : List Frame) : Env :=
  { sdlInit := true, window := true, sdlRenderer := true, metalView := true, metalLayer := true,
    engine := true, swapChain := true, renderer := true, scene := true, view := true,
    material := true, meshFile := true, mesh := true, textureFile := some 160000,
    frames := frames }

/-- A loop iteration in which only a quit event is polled and the frame begins. -/
def quitFrame : Frame := ⟨[.quit], true⟩

/-- The run of an inline demo in which every call succeeds and the first loop
iteration polls a quit event. -/
def quitRun (p : Program) : Outcome :=
  ⟨p.setup (Env.allOk [quitFrame]) ++ (frameBody p initialLoopState quitFrame).2 ++
    p.teardown (Env.allOk [quitFrame]), 0⟩

/-- The index array of a geometry declaration fits its vertex buffer: every index
is below the declared `vertexCount`, the declared `indexCount` is the length of
the array, and a range `(offset, count)` given to `geometry()` lies within the
array. -/
@[reducible] def Geometry.indicesValid (g : Geometry) : Prop :=
  (∀ i ∈ g.indices, i < g.vertexCount) ∧ g.indexCount = g.indices.length ∧
  match g.range with
  | none => True
  | some r => r.1 + r.2 ≤ g.indices.length

/-- Squared distance of two points of the plane. -/
def sqDist {K : Type} [Field K] (p q : K × K) : K :=
  (p.1 - q.1) ^ 2 + (p.2 - q.2) ^ 2

/-- Difference of two points of space. -/
def vsub (p q : ℚ × ℚ × ℚ) : ℚ × ℚ × ℚ :=
  (p.1 - q.1, p.2.1 - q.2.1, p.2.2 - q.2.2)

/-- Cross product. -/
def cross (u v : ℚ × ℚ × ℚ) : ℚ × ℚ × ℚ :=
  (u.2.1 * v.2.2 - u.2.2 * v.2.1, u.2.2 * v.1 - u.1 * v.2.2, u.1 * v.2.1 - u.2.1 * v.1)

/-- Dot product. -/
def dot (u v : ℚ × ℚ × ℚ) : ℚ :=
  u.1 * v.1 + u.2.1 * v.2.1 + u.2.2 * v.2.2

/-- Centroid of a triangle. -/
def centroid (p0 p1 p2 : ℚ × ℚ × ℚ) : ℚ × ℚ × ℚ :=
  ((p0.1 + p1.1 + p2.1) / 3, (p0.2.1 + p1.2.1 + p2.2.1) / 3, (p0.2.2 + p1.2.2 + p2.2.2) / 3)

/-- Position of vertex `i` of `CUBE_VERTICES` in `02-cube`. -/
def Cube.position (i : Nat) : ℚ × ℚ × ℚ :=
  (Cube.CUBE_VERTICES.map Cube.Vertex.position).getD i (0, 0, 0)

/-- Triangle `j` of `02-cube` faces away from the origin: with corners
`p0, p1, p2` in index order, `(p1 - p0) x (p2 - p0)` has a positive dot product
with the centroid. -/
def Cube.outwardFacing (j : Nat) : Prop :=
  0 < dot
    (cross
      (vsub (Cube.position (Cube.CUBE_INDICES.getD (3 * j + 1) 0))
        (Cube.position (Cube.CUBE_INDICES.getD (3 * j) 0)))
      (vsub (Cube.position (Cube.CUBE_INDICES.getD (3 * j + 2) 0))
        (Cube.position (Cube.CUBE_INDICES.getD (3 * j) 0))))
    (centroid (Cube.position (Cube.CUBE_INDICES.getD (3 * j) 0))
      (Cube.position (Cube.CUBE_INDICES.getD (3 * j + 1) 0))
      (Cube.position (Cube.CUBE_INDICES.getD (3 * j + 2) 0)))

/-- The six indices of the two triangles of face `k` of `02-cube`. -/
def Cube.faceIndices (k : Nat) : List Nat :=
  (Cube.CUBE_INDICES.drop (6 * k)).take 6

/-- Recogniser of the calls the method `render()` of `01-triangle` makes. -/
def Call.inRenderMethod : Call → Bool
  | .setProjection | .setTransform | .beginFrame _ | .render | .endFrame => true
  | _ => false

/-- Dimensions of the last resize event of a queue, if it has one. -/
def lastResize : List Event → Option (Int × Int)
  | [] => none
  | .windowResized w h :: es => (lastResize es).orElse fun _ => some (w, h)
  | _ :: es => lastResize es

/-- Events of a queue in front of its first quit event (all of them when there is
none). -/
def beforeFirstQuit (es : List Event) : List Event :=
  es.takeWhile fun e => e != Event.quit

/-- Members of `TriangleRenderer` after a resize to `size`, when there is one: width
and height stored, viewport `(0, 0, width, height)`. -/
def TriangleRenderer.resized (st : TriangleRenderer) : Option (Int × Int) → TriangleRenderer
  | none => st
  | some size =>
      { st with windowWidth := size.1, windowHeight := size.2,
                viewport := ⟨0, 0, toUint32 size.1, toUint32 size.2⟩ }

/-! ## Traces: general facts -/

theorem acquired_append (a b : List Call) : acquired (a ++ b) = acquired a ++ acquired b := by
  induction a with
  | nil => rfl
  | cons c cs ih => simp [acquired, ih]

theorem released_append (a b : List Call) : released (a ++ b) = released a ++ released b := by
  induction a with
  | nil => rfl
  | cons c cs ih => simp [released, ih]

theorem acquired_pollTrace (es : List Event) : acquired (pollTrace es) = [] := by
  unfold pollTrace
  induction es with
  | nil => rfl
  | cons e es ih => simpa [acquired, Call.acquires] using ih

theorem released_pollTrace (es : List Event) : released (pollTrace es) = [] := by
  unfold pollTrace
  induction es with
  | nil => rfl
  | cons e es ih => simpa [released, Call.releases] using ih

theorem acquired_frameBody (p : Program) (s : LoopState) (f : Frame) :
    acquired (frameBody p s f).2 = [] := by
  simp only [frameBody, acquired_append, acquired_pollTrace]
  cases p <;> cases f.beginFrame <;> rfl

theorem released_frameBody (p : Program) (s : LoopState) (f : Frame) :
    released (frameBody p s f).2 = [] := by
  simp only [frameBody, released_append, released_pollTrace]
  cases p <;> cases f.beginFrame <;> rfl

/-- The inline loop neither obtains nor gives back any object. -/
theorem mainLoop_quiet (p : Program) (fs : List Frame) :
    ∀ (s : LoopState) (r : LoopState × List Call), mainLoop p s fs = some r →
      acquired r.2 = [] ∧ released r.2 = [] := by
  induction fs with
  | nil =>
      intro s r h
      cases hs : s.running <;> simp [mainLoop, hs] at h
      subst h; exact ⟨rfl, rfl⟩
  | cons f fs ih =>
      intro s r h
      cases hs : s.running
      · simp [mainLoop, hs] at h
        subst h; exact ⟨rfl, rfl⟩
      · simp only [mainLoop, hs, if_true, Option.map_eq_some'] at h
        obtain ⟨q, hq, rfl⟩ := h
        have := ih _ _ hq
        simp [acquired_append, released_append, acquired_frameBody, released_frameBody, this]

theorem sdlBootstrap_ok (env : Env) (t : List Call) (h : sdlBootstrap env = .ok t) :
    (env.sdlInit = true ∧ env.window = true ∧ env.sdlRenderer = true ∧ env.metalView = true ∧
      env.metalLayer = true) ∧
    t = [.SDL_Init true, .SDL_CreateWindow true, .SDL_CreateRenderer true,
      .SDL_Metal_CreateView true, .SDL_Metal_GetLayer true] := by
  unfold sdlBootstrap at h
  cases h1 : env.sdlInit <;> cases h2 : env.window <;> cases h3 : env.sdlRenderer <;>
    cases h4 : env.metalView <;> cases h5 : env.metalLayer <;> simp [h1, h2, h3, h4, h5] at h
  exact ⟨by simp, h.symm⟩

theorem sdlBootstrap_error (env : Env) (out : Outcome) (h : sdlBootstrap env = .error out) :
    out.exit = 1 ∧ (env.sdlInit = false ∨ env.window = false ∨ env.sdlRenderer = false ∨
      env.metalView = false ∨ env.metalLayer = false) := by
  unfold sdlBootstrap at h
  cases h1 : env.sdlInit <;> cases h2 : env.window <;> cases h3 : env.sdlRenderer <;>
    cases h4 : env.metalView <;> cases h5 : env.metalLayer <;> simp [h1, h2, h3, h4, h5] at h <;>
    (subst h; simp)

/-! ## `01-triangle`: facts about the methods -/

theorem TriangleRenderer.handleEvents_quiet (es : List Event) :
    ∀ st : TriangleRenderer,
      acquired (handleEvents st es).2.2 = [] ∧ released (handleEvents st es).2.2 = [] ∧
      cleanup (handleEvents st es).2.1 = cleanup st := by
  induction es with
  | nil => intro st; exact ⟨rfl, rfl, rfl⟩
  | cons e es ih =>
      intro st
      cases e with
      | quit => exact ⟨rfl, rfl, rfl⟩
      | windowResized a b =>
          obtain ⟨h1, h2, h3⟩ := ih ⟨st.engine, st.swapChain, st.metalView, st.sdlRenderer,
            st.window, a, b, ⟨0, 0, toUint32 a, toUint32 b⟩⟩
          simp only [handleEvents]
          refine ⟨?_, ?_, ?_⟩
          · simpa [acquired, Call.acquires] using h1
          · simpa [released, Call.releases] using h2
          · rw [h3]; rfl
      | other ty =>
          obtain ⟨h1, h2, h3⟩ := ih st
          simp only [handleEvents]
          exact ⟨by simpa [acquired, Call.acquires] using h1,
            by simpa [released, Call.releases] using h2, h3⟩

theorem TriangleRenderer.run_quiet (fs : List Frame) :
    ∀ (st : TriangleRenderer) (r : TriangleRenderer × List Call), run st fs = some r →
      acquired r.2 = [] ∧ released r.2 = [] ∧ cleanup r.1 = cleanup st := by
  induction fs with
  | nil => intro st r h; simp [run] at h
  | cons f fs ih =>
      intro st r h
      obtain ⟨h1, h2, h3⟩ := handleEvents_quiet f.events st
      cases hc : (handleEvents st f.events).1
      · simp only [run, hc, Bool.false_eq_true, if_false, Option.some.injEq] at h
        subst h; exact ⟨h1, h2, h3⟩
      · simp only [run, hc, if_true, Option.map_eq_some'] at h
        obtain ⟨q, hq, rfl⟩ := h
        obtain ⟨g1, g2, g3⟩ := ih _ _ hq
        refine ⟨?_, ?_, g3.trans h3⟩
        · simp only [acquired_append, h1, g1]
          cases f.beginFrame <;> rfl
        · simp only [released_append, h2, g2]
          cases f.beginFrame <;> rfl

theorem TriangleRenderer.initialize_flags (env : Env) :
    (initialize_ env new).1 = !earlyReturn .triangle env := by
  obtain ⟨a1, a2, a3, a4, a5, a6, a7, a8, a9, a10, a11, a12, a13, a14, a15⟩ := env
  simp only [initialize_, earlyReturn]
  cases a1 <;> [rfl; skip]
  cases a2 <;> [rfl; skip]
  cases a3 <;> [rfl; skip]
  cases a6 <;> [rfl; skip]
  cases a4 <;> [rfl; skip]
  cases a5 <;> [rfl; skip]
  cases a7 <;> [rfl; skip]
  cases a8 <;> [rfl; skip]
  cases a9 <;> [rfl; skip]
  cases a10 <;> [rfl; skip]
  cases a11 <;> rfl

theorem TriangleRenderer.initialize_ok (env : Env)
    (h : earlyReturn .triangle env = false) :
    (initialize_ env new).2.1 = ⟨true, true, true, true, true, 800, 600, initialViewport⟩ ∧
    (initialize_ env new).2.2 =
      [.SDL_Init true, .SDL_CreateWindow true, .SDL_CreateRenderer true, .Engine_create true,
       .SDL_Metal_CreateView true, .SDL_Metal_GetLayer true, .createSwapChain true,
       .createRenderer true, .createScene true, .createView true,
       .EntityManager_create .camera, .createCamera .camera, .setCamera,
       .Skybox_build, .setSkybox, .setPostProcessingEnabled,
       .VertexBuffer_build, .setBufferAt, .IndexBuffer_build, .setBuffer,
       .Material_build true, .getDefaultInstance, .EntityManager_create .renderable,
       .Renderable_build .renderable, .addEntity .renderable, .setScene,
       .setViewport initialViewport] := by
  simp only [earlyReturn, Bool.or_eq_false_iff, Bool.not_eq_false'] at h
  obtain ⟨⟨⟨⟨⟨⟨⟨⟨⟨⟨h1, h2⟩, h3⟩, h4⟩, h5⟩, h6⟩, h7⟩, h8⟩, h9⟩, h10⟩, h11⟩ := h
  unfold initialize_
  rw [h1, h2, h3, h4, h5, h6, h7, h8, h9, h10, h11]
  exact ⟨rfl, rfl⟩

/-! ## Early returns: every program returns 1 on a failed test -/

theorem hello_main_early (env : Env) (h : earlyReturn .hello env = true) :
    (Hello.main env).exit = 1 := by
  obtain ⟨a1, a2, a3, a4, a5, a6, a7, a8, a9, a10, a11, a12, a13, a14, a15⟩ := env
  simp only [earlyReturn] at h
  cases a6 <;> [rfl; skip]
  cases a8 <;> [rfl; skip]
  cases a9 <;> [rfl; skip]
  simp at h

theorem hello_main_late (env : Env) (h : earlyReturn .hello env = false) :
    Hello.main env = ⟨[.Engine_create true, .createRenderer true, .createScene true], 0⟩ := by
  obtain ⟨a1, a2, a3, a4, a5, a6, a7, a8, a9, a10, a11, a12, a13, a14, a15⟩ := env
  simp only [earlyReturn] at h
  cases a6 <;> [simp at h; skip]
  cases a8 <;> [simp at h; skip]
  cases a9 <;> [simp at h; skip]
  rfl

theorem rectangle_main_early (env : Env) (h : earlyReturn .rectangle env = true) :
    ∃ out, Rectangle.main env = some out ∧ out.exit = 1 := by
  obtain ⟨a1, a2, a3, a4, a5, a6, a7, a8, a9, a10, a11, a12, a13, a14, a15⟩ := env
  simp only [earlyReturn] at h
  cases a1 <;> [exact ⟨_, rfl, rfl⟩; skip]
  cases a2 <;> [exact ⟨_, rfl, rfl⟩; skip]
  cases a3 <;> [exact ⟨_, rfl, rfl⟩; skip]
  cases a4 <;> [exact ⟨_, rfl, rfl⟩; skip]
  cases a5 <;> [exact ⟨_, rfl, rfl⟩; skip]
  cases a6 <;> [exact ⟨_, rfl, rfl⟩; skip]
  cases a7 <;> [exact ⟨_, rfl, rfl⟩; skip]
  simp at h

theorem cube_main_early (env : Env) (h : earlyReturn .cube env = true) :
    ∃ out, Cube.main env = some out ∧ out.exit = 1 := by
  obtain ⟨a1, a2, a3, a4, a5, a6, a7, a8, a9, a10, a11, a12, a13, a14, a15⟩ := env
  simp only [earlyReturn] at h
  cases a1 <;> [exact ⟨_, rfl, rfl⟩; skip]
  cases a2 <;> [exact ⟨_, rfl, rfl⟩; skip]
  cases a3 <;> [exact ⟨_, rfl, rfl⟩; skip]
  cases a4 <;> [exact ⟨_, rfl, rfl⟩; skip]
  cases a5 <;> [exact ⟨_, rfl, rfl⟩; skip]
  cases a6 <;> [exact ⟨_, rfl, rfl⟩; skip]
  cases a7 <;> [exact ⟨_, rfl, rfl⟩; skip]
  simp at h

theorem morphing_main_early (env : Env) (h : earlyReturn .morphing env = true) :
    ∃ out, Morphing.main env = some out ∧ out.exit = 1 := by
  obtain ⟨a1, a2, a3, a4, a5, a6, a7, a8, a9, a10, a11, a12, a13, a14, a15⟩ := env
  simp only [earlyReturn] at h
  cases a1 <;> [exact ⟨_, rfl, rfl⟩; skip]
  cases a2 <;> [exact ⟨_, rfl, rfl⟩; skip]
  cases a3 <;> [exact ⟨_, rfl, rfl⟩; skip]
  cases a4 <;> [exact ⟨_, rfl, rfl⟩; skip]
  cases a5 <;> [exact ⟨_, rfl, rfl⟩; skip]
  cases a6 <;> [exact ⟨_, rfl, rfl⟩; skip]
  cases a7 <;> [exact ⟨_, rfl, rfl⟩; skip]
  simp at h

theorem pbr_main_early (env : Env) (h : earlyReturn .pbr env = true) :
    ∃ out, Pbr.main env = some out ∧ out.exit = 1 := by
  obtain ⟨a1, a2, a3, a4, a5, a6, a7, a8, a9, a10, a11, a12, a13, a14, a15⟩ := env
  simp only [earlyReturn] at h
  cases a1 <;> [exact ⟨_, rfl, rfl⟩; skip]
  cases a2 <;> [exact ⟨_, rfl, rfl⟩; skip]
  cases a3 <;> [exact ⟨_, rfl, rfl⟩; skip]
  cases a4 <;> [exact ⟨_, rfl, rfl⟩; skip]
  cases a5 <;> [exact ⟨_, rfl, rfl⟩; skip]
  cases a6 <;> [exact ⟨_, rfl, rfl⟩; skip]
  cases a7 <;> [exact ⟨_, rfl, rfl⟩; skip]
  simp at h

theorem cubeMap_main_early (env : Env) (h : earlyReturn .cubeMap env = true) :
    ∃ out, CubeMap.main env = some out ∧ out.exit = 1 := by
  obtain ⟨a1, a2, a3, a4, a5, a6, a7, a8, a9, a10, a11, a12, a13, a14, a15⟩ := env
  simp only [earlyReturn] at h
  cases a1 <;> [exact ⟨_, rfl, rfl⟩; skip]
  cases a2 <;> [exact ⟨_, rfl, rfl⟩; skip]
  cases a3 <;> [exact ⟨_, rfl, rfl⟩; skip]
  cases a4 <;> [exact ⟨_, rfl, rfl⟩; skip]
  cases a5 <;> [exact ⟨_, rfl, rfl⟩; skip]
  cases a6 <;> [exact ⟨_, rfl, rfl⟩; skip]
  cases a14 <;> [exact ⟨_, rfl, rfl⟩; skip]
  simp at h

theorem cubeObj_main_early (env : Env) (h : earlyReturn .cubeObj env = true) :
    ∃ out, CubeObj.main env = some out ∧ out.exit = 1 := by
  obtain ⟨a1, a2, a3, a4, a5, a6, a7, a8, a9, a10, a11, a12, a13, a14, a15⟩ := env
  simp only [earlyReturn] at h
  cases a1 <;> [exact ⟨_, rfl, rfl⟩; skip]
  cases a2 <;> [exact ⟨_, rfl, rfl⟩; skip]
  cases a3 <;> [exact ⟨_, rfl, rfl⟩; skip]
  cases a4 <;> [exact ⟨_, rfl, rfl⟩; skip]
  cases a5 <;> [exact ⟨_, rfl, rfl⟩; skip]
  cases a6 <;> [exact ⟨_, rfl, rfl⟩; skip]
  cases a12 <;> [exact ⟨_, rfl, rfl⟩; skip]
  cases a13 <;> [exact ⟨_, rfl, rfl⟩; skip]
  simp at h

theorem triangle_main_early (env : Env) (h : earlyReturn .triangle env = true) :
    ∃ out, Triangle.main env = some out ∧ out.exit = 1 := by
  have h1 : (TriangleRenderer.initialize_ env TriangleRenderer.new).1 = false := by
    rw [TriangleRenderer.initialize_flags, h]; rfl
  refine ⟨⟨(TriangleRenderer.initialize_ env TriangleRenderer.new).2.2 ++ [.cerr], 1⟩, ?_, rfl⟩
  simp only [Triangle.main, h1, if_true]

/-- Every program returns 1 as soon as one of its tests fails. -/
theorem main_early (p : Program) (env : Env) (h : earlyReturn p env = true) :
    ∃ out, p.main env = some out ∧ out.exit = 1 := by
  cases p with
  | hello => exact ⟨_, rfl, hello_main_early env h⟩
  | rectangle => exact rectangle_main_early env h
  | triangle => exact triangle_main_early env h
  | cube => exact cube_main_early env h
  | cubeMap => exact cubeMap_main_early env h
  | cubeObj => exact cubeObj_main_early env h
  | morphing => exact morphing_main_early env h
  | pbr => exact pbr_main_early env h

/-! ## Past the tests: set-up calls, loop, teardown, `return 0` -/

theorem rectangle_main_late (env : Env) (h : earlyReturn .rectangle env = false) :
    Rectangle.main env = (Program.loop .rectangle env).map fun lt =>
      ⟨Program.setup .rectangle env ++ lt ++ Rectangle.teardown, 0⟩ := by
  obtain ⟨a1, a2, a3, a4, a5, a6, a7, a8, a9, a10, a11, a12, a13, a14, a15⟩ := env
  simp only [earlyReturn, Bool.or_eq_false_iff, Bool.not_eq_false'] at h
  obtain ⟨⟨⟨⟨⟨⟨rfl, rfl⟩, rfl⟩, rfl⟩, rfl⟩, rfl⟩, rfl⟩ := h
  simp only [Program.loop, Option.map_map]; rfl

theorem cube_main_late (env : Env) (h : earlyReturn .cube env = false) :
    Cube.main env = (Program.loop .cube env).map fun lt =>
      ⟨Program.setup .cube env ++ lt ++ Cube.teardown, 0⟩ := by
  obtain ⟨a1, a2, a3, a4, a5, a6, a7, a8, a9, a10, a11, a12, a13, a14, a15⟩ := env
  simp only [earlyReturn, Bool.or_eq_false_iff, Bool.not_eq_false'] at h
  obtain ⟨⟨⟨⟨⟨⟨rfl, rfl⟩, rfl⟩, rfl⟩, rfl⟩, rfl⟩, rfl⟩ := h
  simp only [Program.loop, Option.map_map]; rfl

theorem morphing_main_late (env : Env) (h : earlyReturn .morphing env = false) :
    Morphing.main env = (Program.loop .morphing env).map fun lt =>
      ⟨Program.setup .morphing env ++ lt ++ Morphing.teardown, 0⟩ := by
  obtain ⟨a1, a2, a3, a4, a5, a6, a7, a8, a9, a10, a11, a12, a13, a14, a15⟩ := env
  simp only [earlyReturn, Bool.or_eq_false_iff, Bool.not_eq_false'] at h
  obtain ⟨⟨⟨⟨⟨⟨rfl, rfl⟩, rfl⟩, rfl⟩, rfl⟩, rfl⟩, rfl⟩ := h
  simp only [Program.loop, Option.map_map]; rfl

theorem pbr_main_late (env : Env) (h : earlyReturn .pbr env = false) :
    Pbr.main env = (Program.loop .pbr env).map fun lt =>
      ⟨Program.setup .pbr env ++ lt ++ Pbr.teardown, 0⟩ := by
  obtain ⟨a1, a2, a3, a4, a5, a6, a7, a8, a9, a10, a11, a12, a13, a14, a15⟩ := env
  simp only [earlyReturn, Bool.or_eq_false_iff, Bool.not_eq_false'] at h
  obtain ⟨⟨⟨⟨⟨⟨rfl, rfl⟩, rfl⟩, rfl⟩, rfl⟩, rfl⟩, rfl⟩ := h
  simp only [Program.loop, Option.map_map]; rfl

theorem cubeMap_main_late (env : Env) (h : earlyReturn .cubeMap env = false) :
    CubeMap.main env = (Program.loop .cubeMap env).map fun lt =>
      ⟨Program.setup .cubeMap env ++ lt ++ CubeMap.teardown, 0⟩ := by
  obtain ⟨a1, a2, a3, a4, a5, a6, a7, a8, a9, a10, a11, a12, a13, a14, a15⟩ := env
  simp only [earlyReturn, Bool.or_eq_false_iff, Bool.not_eq_false'] at h
  obtain ⟨⟨⟨⟨⟨⟨rfl, rfl⟩, rfl⟩, rfl⟩, rfl⟩, rfl⟩, h⟩ := h
  cases a14 with
  | none => simp at h
  | some n => simp only [Program.loop, Option.map_map]; rfl

theorem cubeObj_main_late (env : Env) (h : earlyReturn .cubeObj env = false) :
    CubeObj.main env = (Program.loop .cubeObj env).map fun lt =>
      ⟨Program.setup .cubeObj env ++ lt ++ CubeObj.teardown env.textureFile.isSome, 0⟩ := by
  obtain ⟨a1, a2, a3, a4, a5, a6, a7, a8, a9, a10, a11, a12, a13, a14, a15⟩ := env
  simp only [earlyReturn, Bool.or_eq_false_iff, Bool.not_eq_false'] at h
  obtain ⟨⟨⟨⟨⟨⟨⟨rfl, rfl⟩, rfl⟩, rfl⟩, rfl⟩, rfl⟩, rfl⟩, rfl⟩ := h
  simp only [Program.loop, Option.map_map]; rfl

theorem triangle_main_late (env : Env) (h : earlyReturn .triangle env = false) :
    Triangle.main env = (Program.loop .triangle env).map fun lt =>
      ⟨Program.setup .triangle env ++ lt ++ Program.teardown .triangle env, 0⟩ := by
  have h1 : (TriangleRenderer.initialize_ env TriangleRenderer.new).1 = true := by
    rw [TriangleRenderer.initialize_flags, h]; rfl
  obtain ⟨h2, -⟩ := TriangleRenderer.initialize_ok env h
  simp only [Triangle.main, h1, Bool.true_eq_false, if_false, h2, Program.loop,
    Program.setup, Option.map_map]
  cases hr : TriangleRenderer.run ⟨true, true, true, true, true, 800, 600, initialViewport⟩
    env.frames with
  | none => rfl
  | some q =>
    obtain ⟨_, _, g⟩ := TriangleRenderer.run_quiet _ _ _ hr
    simp only [Option.map_some', Function.comp, g]
    rfl

/-- A program that passes all its tests performs its set-up calls, then its
loop, then its teardown sequence, and returns 0. -/
theorem main_late (p : Program) (env : Env) (h : earlyReturn p env = false) :
    p.main env = (p.loop env).map fun lt => ⟨p.setup env ++ lt ++ p.teardown env, 0⟩ := by
  cases p with
  | hello => simp only [Program.main, hello_main_late env h]; rfl
  | rectangle => exact rectangle_main_late env h
  | triangle => exact triangle_main_late env h
  | cube => exact cube_main_late env h
  | cubeMap => exact cubeMap_main_late env h
  | cubeObj => exact cubeObj_main_late env h
  | morphing => exact morphing_main_late env h
  | pbr => exact pbr_main_late env h

/-- The loop of a program neither obtains nor gives back any object. -/
theorem loop_quiet (p : Program) (env : Env) (lt : List Call) (h : p.loop env = some lt) :
    acquired lt = [] ∧ released lt = [] := by
  cases p <;> simp only [Program.loop, Option.map_eq_some', Option.some.injEq] at h
  case hello => subst h; exact ⟨rfl, rfl⟩
  case triangle =>
    obtain ⟨q, hq, rfl⟩ := h
    obtain ⟨g1, g2, _⟩ := TriangleRenderer.run_quiet _ _ _ hq
    exact ⟨g1, g2⟩
  all_goals
    obtain ⟨q, hq, rfl⟩ := h
    exact mainLoop_quiet _ _ _ _ hq

/-- A finished run is an early return with status 1, or set-up, loop and
teardown with status 0. -/
theorem main_cases (p : Program) (env : Env) (out : Outcome) (h : p.main env = some out) :
    (earlyReturn p env = true ∧ out.exit = 1) ∨
    (earlyReturn p env = false ∧ out.exit = 0 ∧
      ∃ lt, p.loop env = some lt ∧ out.trace = p.setup env ++ lt ++ p.teardown env) := by
  cases he : earlyReturn p env
  · right
    rw [main_late p env he, Option.map_eq_some'] at h
    obtain ⟨lt, hl, rfl⟩ := h
    exact ⟨rfl, rfl, lt, hl, rfl⟩
  · left
    obtain ⟨o, ho, h1⟩ := main_early p env he
    rw [ho, Option.some.injEq] at h
    subst h
    exact ⟨rfl, h1⟩

/-! ## Objects obtained and given back on a clean run -/

theorem quiet_middle (a lt b : List Call) (h : acquired lt = [] ∧ released lt = []) :
    acquired (a ++ lt ++ b) = acquired (a ++ b) ∧ released (a ++ lt ++ b) = released (a ++ b) := by
  simp only [acquired_append, released_append, h.1, h.2, List.append_nil, and_self]

theorem clean_objects (p : Program) (env : Env) (he : earlyReturn p env = false)
    (hp : p ≠ .hello) :
    ∀ r ∈ acquired (p.setup env ++ p.teardown env), r.isEngineObject = true →
      ¬ (p = .pbr ∧ (r = .vertexBuffer ∨ r = .indexBuffer)) →
      destroyedOnceBeforeEngine (p.setup env ++ p.teardown env) r := by
  obtain ⟨a1, a2, a3, a4, a5, a6, a7, a8, a9, a10, a11, a12, a13, a14, a15⟩ := env
  cases p with
  | hello => exact absurd rfl hp
  | rectangle =>
    simp only [Program.setup, Program.teardown, Rectangle.assembly]
    cases a8 <;> cases a9 <;> cases a10 <;> cases a11 <;> decide
  | cube =>
    simp only [Program.setup, Program.teardown, Cube.assembly]
    cases a8 <;> cases a9 <;> cases a10 <;> cases a11 <;> decide
  | morphing =>
    simp only [Program.setup, Program.teardown, Morphing.assembly]
    cases a8 <;> cases a9 <;> cases a10 <;> cases a11 <;> decide
  | pbr =>
    simp only [Program.setup, Program.teardown, Pbr.assembly]
    cases a8 <;> cases a9 <;> cases a10 <;> cases a11 <;> cases a13 <;> decide
  | cubeMap =>
    simp only [earlyReturn, Bool.or_eq_false_iff] at he
    cases a14 with
    | none => simp at he
    | some n =>
      have e : CubeMap.loadRGBATexture (some n) 200 200 =
          (true, [.ifstream_open true, .ifstream_read, .ifstream_close, .Texture_build,
            .setImage]) := rfl
      simp only [Program.setup, Program.teardown, CubeMap.assembly, CubeMap.buffers, e]
      cases a7 <;> cases a8 <;> cases a9 <;> cases a10 <;> cases a11 <;> decide
  | cubeObj =>
    cases a14 with
    | none =>
      simp only [Program.setup, Program.teardown, CubeObj.assembly, CubeObj.textureBlock,
        Option.isSome]
      cases a7 <;> cases a8 <;> cases a9 <;> cases a10 <;> cases a11 <;> decide
    | some n =>
      simp only [Program.setup, Program.teardown, CubeObj.assembly, CubeObj.textureBlock,
        Option.isSome]
      cases a7 <;> cases a8 <;> cases a9 <;> cases a10 <;> cases a11 <;> decide
  | triangle =>
    obtain ⟨-, h3⟩ := TriangleRenderer.initialize_ok _ he
    simp only [Program.setup, Program.teardown, h3]
    decide

/-! ## Quit events and the end of the loop -/

theorem pollEvents_viewport (es : List Event) :
    ∀ s : LoopState, (pollEvents s es).viewport = s.viewport := by
  induction es with
  | nil => intro s; rfl
  | cons e es ih =>
      intro s
      simp only [pollEvents]
      rw [ih]
      split <;> rfl

theorem pollEvents_stopped (es : List Event) :
    ∀ s : LoopState, s.running = false → (pollEvents s es).running = false := by
  induction es with
  | nil => intro s h; exact h
  | cons e es ih =>
      intro s h
      simp only [pollEvents]
      apply ih
      split <;> simp [h]

theorem pollEvents_quit (es : List Event) (hq : Event.quit ∈ es) :
    ∀ s : LoopState, (pollEvents s es).running = false := by
  induction es with
  | nil => simp at hq
  | cons e es ih =>
      intro s
      simp only [pollEvents]
      by_cases he : e = Event.quit
      · simp only [he, if_true]
        exact pollEvents_stopped es _ rfl
      · rcases List.mem_cons.1 hq with h | h
        · exact absurd h.symm he
        · exact ih h _

theorem pollEvents_no_quit (es : List Event) (hq : Event.quit ∉ es) :
    ∀ s : LoopState, pollEvents s es = s := by
  induction es with
  | nil => intro s; rfl
  | cons e es ih =>
      intro s
      have he : e ≠ Event.quit := fun h => hq (h ▸ List.mem_cons_self _ _)
      simp only [pollEvents, he, if_false]
      exact ih (fun h => hq (List.mem_cons_of_mem _ h)) s

/-- The inline loop runs through quit-free iterations and stops after the
iteration that polls a quit event; later input is not looked at. -/
theorem mainLoop_quit (p : Program) (f : Frame) (rest : List Frame)
    (hq : Event.quit ∈ f.events) (fs : List Frame) :
    ∀ s : LoopState, s.running = true → (∀ g ∈ fs, Event.quit ∉ g.events) →
      ∃ r, mainLoop p s (fs ++ f :: rest) = some r ∧ mainLoop p s (fs ++ [f]) = some r := by
  induction fs with
  | nil =>
      intro s hs _
      have h1 : (frameBody p s f).1.running = false := pollEvents_quit _ hq s
      refine ⟨((frameBody p s f).1, (frameBody p s f).2 ++ []), ?_, ?_⟩
      · cases rest <;> simp [mainLoop, hs, h1]
      · simp [mainLoop, hs, h1]
  | cons g fs ih =>
      intro s hs hfs
      have h1 : (frameBody p s g).1 = s :=
        pollEvents_no_quit _ (hfs g (List.mem_cons_self _ _)) s
      obtain ⟨r, hr1, hr2⟩ := ih s hs (fun x hx => hfs x (List.mem_cons_of_mem _ hx))
      refine ⟨(r.1, (frameBody p s g).2 ++ r.2), ?_, ?_⟩
      · rw [List.cons_append]
        simp only [mainLoop, hs, if_true, h1, hr1, Option.map_some']
      · rw [List.cons_append]
        simp only [mainLoop, hs, if_true, h1, hr2, Option.map_some']

theorem TriangleRenderer.handleEvents_flag (es : List Event) :
    ∀ st : TriangleRenderer, (handleEvents st es).1 = !decide (Event.quit ∈ es) := by
  induction es with
  | nil => intro st; rfl
  | cons e es ih =>
      intro st
      cases e with
      | quit => simp [handleEvents]
      | windowResized a b => simp [handleEvents, ih]
      | other ty => simp [handleEvents, ih]

/-- The loop of `run()` goes through quit-free iterations and stops in the
iteration whose `handleEvents()` polls a quit event; later input is not
looked at. -/
theorem TriangleRenderer.run_quit (f : Frame) (rest : List Frame)
    (hq : Event.quit ∈ f.events) (fs : List Frame) :
    ∀ st : TriangleRenderer, (∀ g ∈ fs, Event.quit ∉ g.events) →
      ∃ r, run st (fs ++ f :: rest) = some r ∧ run st (fs ++ [f]) = some r := by
  induction fs with
  | nil =>
      intro st _
      have h1 : (handleEvents st f.events).1 = false := by
        rw [handleEvents_flag]; simp [hq]
      refine ⟨((handleEvents st f.events).2.1, (handleEvents st f.events).2.2), ?_, ?_⟩
      · simp only [List.nil_append, run, h1, Bool.false_eq_true, if_false]
      · simp only [List.nil_append, run, h1, Bool.false_eq_true, if_false]
  | cons g fs ih =>
      intro st hfs
      have h1 : (handleEvents st g.events).1 = true := by
        rw [handleEvents_flag]; simp [hfs g (List.mem_cons_self _ _)]
      obtain ⟨r, hr1, hr2⟩ := ih (handleEvents st g.events).2.1
        (fun x hx => hfs x (List.mem_cons_of_mem _ hx))
      refine ⟨(r.1, (handleEvents st g.events).2.2 ++ render g.beginFrame ++ [.SDL_Delay] ++ r.2),
        ?_, ?_⟩
      · rw [List.cons_append]
        simp only [run, h1, if_true, hr1, Option.map_some']
      · rw [List.cons_append]
        simp only [run, h1, if_true, hr2, Option.map_some']

theorem loop_inline (p : Program) (env : Env) (h1 : p ≠ .hello) (h2 : p ≠ .triangle) :
    p.loop env = (mainLoop p initialLoopState env.frames).map fun r => r.2 := by
  cases p <;> first | rfl | exact absurd rfl h1 | exact absurd rfl h2

/-- The loop of every program ends in the iteration that polls a quit event. -/
theorem loop_quit (p : Program) (env : Env) (fs : List Frame) (f : Frame) (rest : List Frame)
    (hfs : ∀ g ∈ fs, Event.quit ∉ g.events) (hq : Event.quit ∈ f.events)
    (hfr : env.frames = fs ++ f :: rest) :
    ∃ lt, p.loop env = some lt ∧ p.loop { env with frames := fs ++ [f] } = some lt := by
  by_cases h1 : p = .hello
  · subst h1; exact ⟨[], rfl, rfl⟩
  by_cases h2 : p = .triangle
  · subst h2
    obtain ⟨r, g1, g2⟩ := TriangleRenderer.run_quit f rest hq fs
      ⟨true, true, true, true, true, 800, 600, initialViewport⟩ hfs
    exact ⟨r.2, by simp only [Program.loop, hfr, g1, Option.map_some'],
      by simp only [Program.loop, g2, Option.map_some']⟩
  · obtain ⟨r, g1, g2⟩ := mainLoop_quit p f rest hq fs initialLoopState rfl hfs
    exact ⟨r.2, by simp only [loop_inline p _ h1 h2, hfr, g1, Option.map_some'],
      by simp only [loop_inline p _ h1 h2, g2, Option.map_some']⟩

theorem filter_pollTrace (q : Call → Bool) (hq : ∀ e, q (.SDL_PollEvent e) = false)
    (es : List Event) : (pollTrace es).filter q = [] := by
  unfold pollTrace
  induction es with
  | nil => simp [hq]
  | cons e es ih => simp [hq, ih]

theorem TriangleRenderer.filter_handleEvents (q : Call → Bool)
    (hq : ∀ e, q (.SDL_PollEvent e) = false) (hv : ∀ v, q (.setViewport v) = false)
    (es : List Event) :
    ∀ st : TriangleRenderer, (handleEvents st es).2.2.filter q = [] := by
  induction es with
  | nil => intro st; simp [handleEvents, hq]
  | cons e es ih =>
      intro st
      cases e with
      | quit => simp [handleEvents, hq]
      | windowResized a b => simp [handleEvents, hq, hv, ih]
      | other ty => simp [handleEvents, hq, ih]

theorem toUint32_of_nat (w : Nat) (hw : w < 2147483648) : toUint32 (w : Int) = w := by
  unfold toUint32
  omega

theorem fmod_8_16 {K : Type} [LinearOrderedField K] [FloorRing K] : fmod (8 : K) 16 = 8 := by
  have h : ⌊(8 : K) / 16⌋ = 0 := by
    rw [Int.floor_eq_zero_iff]
    constructor <;> norm_num
  have h0 : (0 : K) ≤ 8 / 16 := by norm_num
  simp [fmod, h0, h]

theorem fmod_16_16 {K : Type} [LinearOrderedField K] [FloorRing K] : fmod (16 : K) 16 = 0 := by
  have h : (16 : K) / 16 = ((1 : ℤ) : K) := by norm_num
  have h0 : (0 : K) ≤ 16 / 16 := by norm_num
  simp only [fmod, h0, if_true]
  rw [h, Int.floor_intCast]
  norm_num

theorem fmod_0_16 {K : Type} [LinearOrderedField K] [FloorRing K] : fmod (0 : K) 16 = 0 := by
  simp [fmod]

/-! ## Claims -/

/-- C1, counterexample: `macos-demo/main.cpp` creates engine, renderer and scene and
returns 0; the renderer, an object obtained from the engine, is never destroyed. -/
theorem hello_returns_without_destroying :
    ∃ out, Program.main .hello (Env.allOk []) = some out ∧ out.exit = 0 ∧
      Res.renderer ∈ acquired out.trace ∧ Res.renderer.isEngineObject = true ∧
      ¬ destroyedOnceBeforeEngine out.trace Res.renderer :=
  ⟨⟨[.Engine_create true, .createRenderer true, .createScene true], 0⟩, rfl, rfl,
    by decide, rfl, by decide⟩

/-- C1 (amended): whenever a program returns 0, then, in each of the seven windowed
demos, every object obtained through the engine up to that point is destroyed
exactly once and before the engine (the vertex and index buffer of the mesh loaded
in `04-pbr` are left out of the statement), while `macos-demo/main.cpp` has obtained
engine, renderer and scene and has destroyed nothing. -/
theorem engine_objects_destroyed_once_before_engine (p : Program) (env : Env) (out : Outcome)
    (h : p.main env = some out) (h0 : out.exit = 0) :
    (p = .hello → acquired out.trace = [.engine, .renderer, .scene] ∧ released out.trace = []) ∧
    (p ≠ .hello → ∀ r ∈ acquired out.trace, r.isEngineObject = true →
      ¬ (p = .pbr ∧ (r = .vertexBuffer ∨ r = .indexBuffer)) →
      destroyedOnceBeforeEngine out.trace r) := by
  rcases main_cases p env out h with ⟨-, h1⟩ | ⟨he, -, lt, hl, ht⟩
  · omega
  · obtain ⟨ha, hr⟩ := quiet_middle (p.setup env) lt (p.teardown env) (loop_quiet p env lt hl)
    refine ⟨?_, ?_⟩
    · rintro rfl
      simp only [Program.loop, Option.some.injEq] at hl
      subst hl
      rw [ht]
      exact ⟨rfl, rfl⟩
    · intro hp r hmem
      have key := clean_objects p env he hp r
      simp only [destroyedOnceBeforeEngine, ht, ha, hr] at hmem ⊢
      exact key hmem

/-- C1, witness: a run of `04-pbr` in which every call succeeds and the first
iteration polls a quit event returns 0, and the skybox it created is destroyed exactly
once and before the engine. -/
theorem engine_objects_destroyed_once_before_engine_witness :
    Program.main .pbr (Env.allOk [quitFrame]) = some (quitRun .pbr) ∧
    (quitRun .pbr).exit = 0 ∧ Res.skybox ∈ acquired (quitRun .pbr).trace ∧
    destroyedOnceBeforeEngine (quitRun .pbr).trace .skybox :=
  ⟨rfl, rfl, by decide,
    (engine_objects_destroyed_once_before_engine .pbr (Env.allOk [quitFrame]) (quitRun .pbr)
      rfl rfl).2 (by decide) .skybox (by decide) rfl (by decide)⟩

/-- The vertex and index buffer that `loadMeshFromBuffer` hands to `04-pbr` are
never destroyed on a clean run, whereas `02-cube-obj` destroys those of its mesh. -/
theorem pbr_mesh_buffers_not_destroyed :
    ∃ out, Program.main .pbr (Env.allOk [quitFrame]) = some out ∧ out.exit = 0 ∧
      leaked out.trace = [.vertexBuffer, .indexBuffer] :=
  ⟨quitRun .pbr, rfl, rfl, by decide⟩

/-- C2 (the code at the failing input): on a clean run of `02-cube` the vertex
buffer is created before the index buffer and also destroyed before it, and the
skybox is created before the camera component and also destroyed before it, so
the teardown is not the reverse of the order of creation. -/
theorem cube_teardown_not_reverse_of_creation :
    ∃ out, Program.main .cube (Env.allOk [quitFrame]) = some out ∧ out.exit = 0 ∧
      (acquired out.trace).indexOf .vertexBuffer < (acquired out.trace).indexOf .indexBuffer ∧
      (released out.trace).indexOf .vertexBuffer < (released out.trace).indexOf .indexBuffer ∧
      (acquired out.trace).indexOf .skybox <
        (acquired out.trace).indexOf (.cameraComponent .camera) ∧
      (released out.trace).indexOf .skybox <
        (released out.trace).indexOf (.cameraComponent .camera) :=
  ⟨quitRun .cube, rfl, rfl, by decide, by decide, by decide, by decide⟩

/-- C3 (the code at the failing input): when engine creation fails in `02-cube-map`
the program returns 1 with the SDL renderer still alive; when swapchain creation
fails in `01-triangle` the program returns 1 having released nothing. -/
theorem bootstrap_failure_leaks :
    (∃ out, Program.main .cubeMap { Env.allOk [] with engine := false } = some out ∧
      out.exit = 1 ∧ leaked out.trace = [.sdlRenderer]) ∧
    (∃ out, Program.main .triangle { Env.allOk [] with swapChain := false } = some out ∧
      out.exit = 1 ∧ released out.trace = [] ∧
      leaked out.trace = [.sdl, .window, .sdlRenderer, .engine, .metalView]) :=
  ⟨⟨⟨[.SDL_Init true, .SDL_CreateWindow true, .SDL_CreateRenderer true,
      .SDL_Metal_CreateView true, .SDL_Metal_GetLayer true, .Engine_create false, .cerr,
      .SDL_Metal_DestroyView, .SDL_DestroyWindow, .SDL_Quit], 1⟩, rfl, rfl, by decide⟩,
   ⟨⟨[.SDL_Init true, .SDL_CreateWindow true, .SDL_CreateRenderer true, .Engine_create true,
      .SDL_Metal_CreateView true, .SDL_Metal_GetLayer true, .createSwapChain false, .cerr,
      .cerr], 1⟩, rfl, rfl, by decide, by decide⟩⟩

/-- C6, counterexample: in `02-cube` an iteration that polls a resize event to
1024 x 768 makes no `setViewport` call; the viewport stays at 800 x 600. -/
theorem inline_loop_ignores_resize :
    (frameBody .cube initialLoopState ⟨[.windowResized 1024 768], true⟩).1.viewport
      ≠ ⟨0, 0, 1024, 768⟩ ∧
    (frameBody .cube initialLoopState ⟨[.windowResized 1024 768], true⟩).2.filter
      Call.isSetViewport = [] :=
  ⟨by decide, rfl⟩

/-- C6 (amended): in `01-triangle`, handling a resize event with dimensions `w`, `h`
(non-negative 32-bit values) stores them, sets the viewport to `(0, 0, w, h)` and
goes on with the remaining events, and the value `handleEvents()` returns is the one
the remaining events give.  In the six demos with an inline loop a resize event
changes neither `running` nor the viewport, and an iteration makes no `setViewport`
call. -/
theorem resize_event (w h : Nat) (hw : w < 2147483648) (hh : h < 2147483648) :
    (∀ (st : TriangleRenderer) (es : List Event),
      TriangleRenderer.handleEvents st (.windowResized w h :: es) =
        ((TriangleRenderer.handleEvents ⟨st.engine, st.swapChain, st.metalView,
            st.sdlRenderer, st.window, w, h, ⟨0, 0, w, h⟩⟩ es).1,
         (TriangleRenderer.handleEvents ⟨st.engine, st.swapChain, st.metalView,
            st.sdlRenderer, st.window, w, h, ⟨0, 0, w, h⟩⟩ es).2.1,
         [.SDL_PollEvent (some (.windowResized w h)), .setViewport ⟨0, 0, w, h⟩] ++
           (TriangleRenderer.handleEvents ⟨st.engine, st.swapChain, st.metalView,
            st.sdlRenderer, st.window, w, h, ⟨0, 0, w, h⟩⟩ es).2.2)) ∧
    (∀ (st : TriangleRenderer) (es : List Event),
      (TriangleRenderer.handleEvents st (.windowResized w h :: es)).1 =
        (TriangleRenderer.handleEvents st es).1) ∧
    (∀ (s : LoopState) (es : List Event),
      pollEvents s (.windowResized w h :: es) = pollEvents s es) ∧
    (∀ (p : Program) (s : LoopState) (es : List Event) (ok : Bool),
      (frameBody p s ⟨.windowResized w h :: es, ok⟩).1.viewport = s.viewport ∧
      (frameBody p s ⟨.windowResized w h :: es, ok⟩).2.filter Call.isSetViewport = []) := by
  refine ⟨?_, ?_, ?_, ?_⟩
  · intro st es
    simp only [TriangleRenderer.handleEvents, toUint32_of_nat w hw, toUint32_of_nat h hh]
  · intro st es
    simp only [TriangleRenderer.handleEvents, TriangleRenderer.handleEvents_flag]
  · intro s es
    simp [pollEvents]
  · intro p s es ok
    refine ⟨pollEvents_viewport _ s, ?_⟩
    have e := filter_pollTrace Call.isSetViewport (fun _ => rfl) (.windowResized w h :: es)
    simp only [frameBody, List.filter_append, e, List.nil_append]
    cases p <;> cases ok <;> rfl

/-- C6, witness: a resize to 1024 x 768, alone in the queue, handled by
`01-triangle`. -/
theorem resize_event_witness :
    TriangleRenderer.handleEvents TriangleRenderer.new [.windowResized (1024 : Nat) (768 : Nat)] =
      (true, ⟨false, false, false, false, false, (1024 : Nat), (768 : Nat), ⟨0, 0, 1024, 768⟩⟩,
       [.SDL_PollEvent (some (.windowResized (1024 : Nat) (768 : Nat))),
        .setViewport ⟨0, 0, 1024, 768⟩, .SDL_PollEvent none]) :=
  (resize_event 1024 768 (by decide) (by decide)).1 TriangleRenderer.new []

/-- Over exact arithmetic, with any value of the constant `M_PI`, the two-stage
rotation at elapsed time 8 s is `(2 * M_PI, 0)`: one full horizontal turn and
no vertical rotation; at 16 s it is `(0, 0)`, the same as at 0 s. -/
theorem twoStageRotation_at_8_and_16 {K : Type} [LinearOrderedField K] [FloorRing K]
    (M_PI : K) :
    twoStageRotation M_PI 8 = (2 * M_PI, 0) ∧
    twoStageRotation M_PI 16 = twoStageRotation M_PI 0 ∧
    twoStageRotation M_PI 0 = (0, 0) := by
  refine ⟨?_, ?_, ?_⟩
  · simp [twoStageRotation, fmod_8_16]
  · simp [twoStageRotation, fmod_16_16, fmod_0_16]
  · simp [twoStageRotation, fmod_0_16]

/-- Over exact arithmetic, the two morph weights `(1 - w, w)` with
`w = sin(t) / 2 + 0.5` sum to 1 at every elapsed time `t` (for the real sine and
for any other function in its place). -/
theorem weights_sum {K : Type} [Field K] (sin : K → K) (t : K) :
    (weights sin t).1 + (weights sin t).2 = 1 := by
  simp [weights]

/-- C9: over the reals, the morph weight `w = sin(t) / 2 + 0.5` lies in `[0, 1]` at
every elapsed time `t`, and so do both weights `1 - w` and `w` passed on. -/
theorem morph_weight_in_unit_interval (t : ℝ) :
    (0 ≤ morphWeight Real.sin t ∧ morphWeight Real.sin t ≤ 1) ∧
    (0 ≤ (weights Real.sin t).1 ∧ (weights Real.sin t).1 ≤ 1) ∧
    (0 ≤ (weights Real.sin t).2 ∧ (weights Real.sin t).2 ≤ 1) := by
  have h1 := Real.neg_one_le_sin t
  have h2 := Real.sin_le_one t
  simp only [weights, morphWeight]
  refine ⟨⟨?_, ?_⟩, ⟨?_, ?_⟩, ⟨?_, ?_⟩⟩ <;> linarith

/-- C10: in an iteration of an inline loop (`frameBody`) and in an iteration of the
loop of `01-triangle` (`handleEvents()` returned `true`, then `render()` and
`SDL_Delay`), the frame calls are `beginFrame`, `render`, `endFrame`, once each and
in this order, when `beginFrame` returns `true`, and `beginFrame` alone when it
returns `false`.  A declined frame writes no error message, and the loop
variables and the rest of the run are the same as with an accepted frame. -/
theorem frame_calls (p : Program) (s : LoopState) (st : TriangleRenderer) (es : List Event)
    (fs : List Frame) :
    ((frameBody p s ⟨es, true⟩).2.filter Call.isFrameCall
        = [.beginFrame true, .render, .endFrame] ∧
      (frameBody p s ⟨es, false⟩).2.filter Call.isFrameCall = [.beginFrame false] ∧
      (frameBody p s ⟨es, false⟩).2.filter Call.isCerr = [] ∧
      (frameBody p s ⟨es, false⟩).1 = (frameBody p s ⟨es, true⟩).1 ∧
      (mainLoop p s (⟨es, false⟩ :: fs)).map (fun r => r.1)
        = (mainLoop p s (⟨es, true⟩ :: fs)).map (fun r => r.1)) ∧
    (((TriangleRenderer.handleEvents st es).2.2 ++ TriangleRenderer.render true ++
        [Call.SDL_Delay]).filter Call.isFrameCall = [.beginFrame true, .render, .endFrame] ∧
      ((TriangleRenderer.handleEvents st es).2.2 ++ TriangleRenderer.render false ++
        [Call.SDL_Delay]).filter Call.isFrameCall = [.beginFrame false] ∧
      ((TriangleRenderer.handleEvents st es).2.2 ++ TriangleRenderer.render false ++
        [Call.SDL_Delay]).filter Call.isCerr = [] ∧
      (TriangleRenderer.run st (⟨es, false⟩ :: fs)).map (fun r => r.1)
        = (TriangleRenderer.run st (⟨es, true⟩ :: fs)).map (fun r => r.1)) := by
  have e1 := filter_pollTrace Call.isFrameCall (fun _ => rfl) es
  have e2 := filter_pollTrace Call.isCerr (fun _ => rfl) es
  have e3 := TriangleRenderer.filter_handleEvents Call.isFrameCall (fun _ => rfl)
    (fun _ => rfl) es st
  have e4 := TriangleRenderer.filter_handleEvents Call.isCerr (fun _ => rfl)
    (fun _ => rfl) es st
  refine ⟨⟨?_, ?_, ?_, rfl, ?_⟩, ?_, ?_, ?_, ?_⟩
  · simp only [frameBody, List.filter_append, e1, List.nil_append]
    cases p <;> rfl
  · simp only [frameBody, List.filter_append, e1, List.nil_append]
    cases p <;> rfl
  · simp only [frameBody, List.filter_append, e2, List.nil_append]
    cases p <;> rfl
  · cases hs : s.running
    · simp [mainLoop, hs]
    · simp [mainLoop, hs, Option.map_map, frameBody, Function.comp_def]
  · simp only [List.filter_append, e3, List.nil_append]; rfl
  · simp only [List.filter_append, e3, List.nil_append]; rfl
  · simp only [List.filter_append, e4, List.nil_append]; rfl
  · cases hc : (TriangleRenderer.handleEvents st es).1
    · simp [TriangleRenderer.run, hc]
    · simp [TriangleRenderer.run, hc, Option.map_map, Function.comp_def]

/-! ## Further facts used by the claims on teardown, events and arithmetic -/

theorem released_setup (p : Program) (env : Env) (he : earlyReturn p env = false) :
    released (p.setup env) = [] := by
  cases p with
  | triangle =>
    obtain ⟨-, h3⟩ := TriangleRenderer.initialize_ok _ he
    simp only [Program.setup, h3]
    rfl
  | cubeMap =>
    simp only [Program.setup, released_append]
    cases env.textureFile <;> rfl
  | cubeObj =>
    simp only [Program.setup, released_append, CubeObj.assembly]
    cases env.textureFile <;> rfl
  | _ => rfl

theorem released_clean_run (p : Program) (env : Env) (out : Outcome)
    (h : p.main env = some out) (h0 : out.exit = 0) :
    released out.trace = released (p.teardown env) := by
  rcases main_cases p env out h with ⟨-, h1⟩ | ⟨he, -, lt, hl, ht⟩
  · omega
  · rw [ht, released_append, released_append, released_setup p env he,
      (loop_quiet p env lt hl).2]
    rfl

theorem TriangleRenderer.handleEvents_after_quit (post : List Event) (pre : List Event) :
    ∀ st : TriangleRenderer,
      handleEvents st (pre ++ Event.quit :: post) = handleEvents st (pre ++ [Event.quit]) := by
  induction pre with
  | nil => intro st; rfl
  | cons e es ih =>
      intro st
      cases e with
      | quit => rfl
      | windowResized a b =>
          rw [List.cons_append, List.cons_append]
          simp only [handleEvents, ih]
      | other ty =>
          rw [List.cons_append, List.cons_append]
          simp only [handleEvents, ih]

theorem fmod_of_nonneg {K : Type} [LinearOrderedField K] [FloorRing K] (t : K) (ht : 0 ≤ t) :
    fmod t 16 = t - 16 * (⌊t / 16⌋ : K) ∧ 0 ≤ fmod t 16 ∧ fmod t 16 < 16 := by
  have h0 : (0 : K) ≤ t / 16 := by positivity
  have e : fmod t 16 = t - 16 * (⌊t / 16⌋ : K) := by simp only [fmod, h0, if_true]
  have h1 : ((⌊t / 16⌋ : ℤ) : K) ≤ t / 16 := Int.floor_le _
  have h2 : t / 16 < (⌊t / 16⌋ : K) + 1 := Int.lt_floor_add_one _
  have h3 : t = 16 * (t / 16) := by ring
  refine ⟨e, ?_, ?_⟩
  · rw [e]; linarith
  · rw [e]; linarith

theorem fmod_add_period {K : Type} [LinearOrderedField K] [FloorRing K] (t : K) (ht : 0 ≤ t) :
    fmod (t + 16) 16 = fmod t 16 := by
  have h16 : (0 : K) ≤ t + 16 := by linarith
  rw [(fmod_of_nonneg (t + 16) h16).1, (fmod_of_nonneg t ht).1]
  have e : (t + 16) / 16 = t / 16 + 1 := by ring
  rw [e, Int.floor_add_one]
  push_cast
  ring

theorem pack_bytes (x y z w : Nat) (hy : y < 256) (hz : z < 256) (hw : w < 256)
    (hx : x < 256) :
    ((x <<< 24) % 4294967296) ||| ((y <<< 16) % 4294967296) ||| ((z <<< 8) % 4294967296) ||| w
      = x * 2 ^ 24 + y * 2 ^ 16 + z * 2 ^ 8 + w := by
  have e1 : (x <<< 24) % 4294967296 = 2 ^ 24 * x := by
    rw [Nat.shiftLeft_eq]; omega
  have e2 : (y <<< 16) % 4294967296 = 2 ^ 16 * y := by
    rw [Nat.shiftLeft_eq]; omega
  have e3 : (z <<< 8) % 4294967296 = 2 ^ 8 * z := by
    rw [Nat.shiftLeft_eq]; omega
  rw [e1, e2, e3, Nat.lor_assoc, Nat.lor_assoc]
  rw [← Nat.mul_add_lt_is_or (by omega : w < 2 ^ 8) z]
  rw [← Nat.mul_add_lt_is_or (by omega : 2 ^ 8 * z + w < 2 ^ 16) y]
  rw [← Nat.mul_add_lt_is_or (by omega : 2 ^ 16 * y + (2 ^ 8 * z + w) < 2 ^ 24) x]
  omega

/-! ## Claims on the texture check, loop state, teardown order and arithmetic -/

/-- C11 (the code at the failing input): for a texture file of 100 bytes and
`width = height = 200`, `loadRGBATexture` writes no message and returns a texture,
and `02-cube-map` goes on to its loop and returns 0 after a quit event; in fact
`loadRGBATexture` returns a texture for every file that opens. -/
theorem loadRGBATexture_accepts_any_length :
    100 ≠ 200 * 200 * 4 ∧
    (CubeMap.loadRGBATexture (some 100) 200 200).1 = true ∧
    (CubeMap.loadRGBATexture (some 100) 200 200).2.filter Call.isCerr = [] ∧
    (∃ out, Program.main .cubeMap { Env.allOk [quitFrame] with textureFile := some 100 }
        = some out ∧ out.exit = 0) ∧
    ∀ n width height : Nat, (CubeMap.loadRGBATexture (some n) width height).1 = true := by
  refine ⟨by decide, rfl, rfl, ⟨⟨Program.setup .cubeMap
    { Env.allOk [quitFrame] with textureFile := some 100 } ++
    (frameBody .cubeMap initialLoopState quitFrame).2 ++ CubeMap.teardown, 0⟩, rfl, rfl⟩, ?_⟩
  intro n width height
  simp [CubeMap.loadRGBATexture]

/-- C12: the inline loops are entered with `running = true`, and `01-triangle`
enters its loop body when no event is pending.  An event other than quit does
not change `running` (inline loops) nor the value `handleEvents()` returns
(`01-triangle`).  Once `running` is `false` no event sets it again and the loop
makes no further iteration; in `01-triangle` nothing that follows a quit event in
the queue or in later input is looked at. -/
theorem loop_state_transitions (e : Event) (he : e ≠ Event.quit) :
    (initialLoopState.running = true ∧
      (∀ (p : Program) (env : Env), p ≠ .hello → p ≠ .triangle →
        p.loop env = (mainLoop p initialLoopState env.frames).map fun r => r.2) ∧
      ∀ st : TriangleRenderer, (TriangleRenderer.handleEvents st []).1 = true) ∧
    ((∀ (s : LoopState) (es : List Event), pollEvents s (e :: es) = pollEvents s es) ∧
      ∀ (st : TriangleRenderer) (es : List Event),
        (TriangleRenderer.handleEvents st (e :: es)).1 =
          (TriangleRenderer.handleEvents st es).1) ∧
    ((∀ (s : LoopState) (es : List Event), s.running = false →
        (pollEvents s es).running = false) ∧
      (∀ (p : Program) (s : LoopState) (fs : List Frame), s.running = false →
        mainLoop p s fs = some (s, [])) ∧
      (∀ (st : TriangleRenderer) (pre post : List Event),
        TriangleRenderer.handleEvents st (pre ++ Event.quit :: post) =
          TriangleRenderer.handleEvents st (pre ++ [Event.quit]) ∧
        (TriangleRenderer.handleEvents st (pre ++ Event.quit :: post)).1 = false) ∧
      ∀ (st : TriangleRenderer) (f : Frame) (fs : List Frame),
        (TriangleRenderer.handleEvents st f.events).1 = false →
          TriangleRenderer.run st (f :: fs) = TriangleRenderer.run st [f]) := by
  refine ⟨⟨rfl, fun p env h1 h2 => loop_inline p env h1 h2, fun st => rfl⟩, ⟨?_, ?_⟩,
    ⟨fun s es => pollEvents_stopped es s, ?_, ?_, ?_⟩⟩
  · intro s es
    simp only [pollEvents, he, if_false]
  · intro st es
    simp only [TriangleRenderer.handleEvents_flag, List.mem_cons, he.symm, false_or]
  · intro p s fs hs
    cases fs <;> simp [mainLoop, hs]
  · intro st pre post
    refine ⟨TriangleRenderer.handleEvents_after_quit post pre st, ?_⟩
    rw [TriangleRenderer.handleEvents_flag]
    simp
  · intro st f fs hf
    simp only [TriangleRenderer.run, hf, Bool.false_eq_true, if_false]

/-- C12, witness: a resize event in front of a quit event. -/
theorem loop_state_transitions_witness :
    pollEvents initialLoopState [Event.windowResized 640 480, Event.quit] =
      pollEvents initialLoopState [Event.quit] :=
  (loop_state_transitions (Event.windowResized 640 480) (by decide)).2.1.1 initialLoopState
    [Event.quit]

/-- Order of the releases in a windowed demo that returns 0: from the destruction of
the engine on they are exactly engine, Metal view, SDL renderer, window, `SDL_Quit`.
So the engine is destroyed once, every object of the windowing library is released
after it, and whatever is destroyed through the engine, the swapchain and the scene
among it, is destroyed before it.  This speaks of the objects that are destroyed, not
of those a demo holds and never destroys (the mesh buffers of `04-pbr`). -/
theorem engine_destroyed_last (p : Program) (env : Env) (out : Outcome) (hp : p ≠ .hello)
    (h : p.main env = some out) (h0 : out.exit = 0) :
    released out.trace = beforeEngine out.trace ++ fromEngine out.trace ∧
    fromEngine out.trace = [.engine, .metalView, .sdlRenderer, .window, .sdl] ∧
    (∀ r ∈ beforeEngine out.trace, r ≠ .engine ∧ r.isWindowSystem = false) ∧
    (∀ r ∈ released out.trace, r.isEngineObject = true → r ∈ beforeEngine out.trace) ∧
    Res.swapChain ∈ beforeEngine out.trace ∧ Res.scene ∈ beforeEngine out.trace := by
  have hr := released_clean_run p env out h h0
  simp only [beforeEngine, fromEngine, hr]
  refine ⟨(List.takeWhile_append_dropWhile _ _).symm, ?_⟩
  cases p with
  | hello => exact absurd rfl hp
  | cubeObj =>
    simp only [Program.teardown]
    cases env.textureFile <;> simp only [Option.isSome] <;> decide
  | _ => simp only [Program.teardown]; decide

/-- The order of the releases on the run of `02-cube-obj` in which every call succeeds
and the first iteration polls a quit event. -/
theorem engine_destroyed_last_witness :
    Program.main .cubeObj (Env.allOk [quitFrame]) = some (quitRun .cubeObj) ∧
    fromEngine (quitRun .cubeObj).trace = [.engine, .metalView, .sdlRenderer, .window, .sdl] :=
  ⟨rfl, (engine_destroyed_last .cubeObj (Env.allOk [quitFrame]) (quitRun .cubeObj)
    (by decide) rfl rfl).2.1⟩

/-- C13 (the code at the failing input): on the run of `04-pbr` in which every call
succeeds and the first iteration polls a quit event, the program returns 0 and has
destroyed the engine, while the vertex buffer and the index buffer of the mesh that
`loadMeshFromBuffer` built through the engine (line 141) have not been destroyed, and
never are.  On the same run `02-cube-obj` destroys both buffers of its mesh, once and
before the engine. -/
theorem pbr_engine_destroyed_before_mesh_buffers :
    (∃ out, Program.main .pbr (Env.allOk [quitFrame]) = some out ∧ out.exit = 0 ∧
      Res.vertexBuffer ∈ acquired out.trace ∧ Res.indexBuffer ∈ acquired out.trace ∧
      Res.vertexBuffer.isEngineObject = true ∧ Res.indexBuffer.isEngineObject = true ∧
      Res.engine ∈ released out.trace ∧
      Res.vertexBuffer ∉ released out.trace ∧ Res.indexBuffer ∉ released out.trace) ∧
    (∃ out, Program.main .cubeObj (Env.allOk [quitFrame]) = some out ∧ out.exit = 0 ∧
      destroyedOnceBeforeEngine out.trace .vertexBuffer ∧
      destroyedOnceBeforeEngine out.trace .indexBuffer) :=
  ⟨⟨quitRun .pbr, rfl, rfl, by decide, by decide, rfl, rfl, by decide, by decide, by decide⟩,
   ⟨quitRun .cubeObj, rfl, rfl, by decide, by decide⟩⟩

/-- C14: in `01-rectangle`, `02-cube`, `03-morphing` and `04-pbr`, when `SDL_Init`
succeeds and window, SDL renderer, Metal view, Metal layer, engine or swapchain
creation fails, the program returns 1, what it has released is exactly what it had
acquired, in reverse order of acquisition, and its last call is `SDL_Quit`. -/
theorem bootstrap_failure_unwinds (p : Program) (env : Env)
    (hp : p = .rectangle ∨ p = .cube ∨ p = .morphing ∨ p = .pbr)
    (hs : env.sdlInit = true) (he : earlyReturn p env = true) :
    ∃ out, p.main env = some out ∧ out.exit = 1 ∧
      released out.trace = (acquired out.trace).reverse ∧
      out.trace.getLast? = some Call.SDL_Quit := by
  obtain ⟨a1, a2, a3, a4, a5, a6, a7, a8, a9, a10, a11, a12, a13, a14, a15⟩ := env
  simp only at hs
  subst hs
  rcases hp with rfl | rfl | rfl | rfl <;>
  · simp only [earlyReturn] at he
    cases a2 <;> [exact ⟨_, rfl, rfl, rfl, rfl⟩; skip]
    cases a3 <;> [exact ⟨_, rfl, rfl, rfl, rfl⟩; skip]
    cases a4 <;> [exact ⟨_, rfl, rfl, rfl, rfl⟩; skip]
    cases a5 <;> [exact ⟨_, rfl, rfl, rfl, rfl⟩; skip]
    cases a6 <;> [exact ⟨_, rfl, rfl, rfl, rfl⟩; skip]
    cases a7 <;> [exact ⟨_, rfl, rfl, rfl, rfl⟩; skip]
    simp at he

/-- C14, witness: `04-pbr` with a failing swapchain creation. -/
theorem bootstrap_failure_unwinds_witness :
    ∃ out, Program.main .pbr { Env.allOk [] with swapChain := false } = some out ∧
      out.exit = 1 ∧ released out.trace = (acquired out.trace).reverse ∧
      out.trace.getLast? = some Call.SDL_Quit :=
  bootstrap_failure_unwinds .pbr { Env.allOk [] with swapChain := false }
    (Or.inr (Or.inr (Or.inr rfl))) rfl rfl

/-- C15: over exact arithmetic, with any value of the constant `M_PI`, the two-stage
rotation has period 16 s: for every elapsed time `t ≥ 0` the pair of angles at
`t + 16` is the pair at `t`. -/
theorem two_stage_rotation_periodic {K : Type} [LinearOrderedField K] [FloorRing K]
    (M_PI t : K) (ht : 0 ≤ t) :
    twoStageRotation M_PI (t + 16) = twoStageRotation M_PI t := by
  simp only [twoStageRotation, fmod_add_period t ht]

/-- C15, witness: elapsed times 3 s and 19 s, over the rationals. -/
theorem two_stage_rotation_periodic_witness :
    twoStageRotation (3 : ℚ) (3 + 16) = twoStageRotation (3 : ℚ) 3 :=
  two_stage_rotation_periodic (3 : ℚ) 3 (by norm_num)

/-- C17: in `02-cube` and `03-morphing`, with the shifts of the promoted `int`
operands kept as 32-bit patterns, `makeColor(r, g, b, a)` is
`a * 2^24 + r * 2^16 + g * 2^8 + b` for all 8-bit `r`, `g`, `b`, `a`, also for
`a ≥ 128`; the value is below `2^32`. -/
theorem makeColor_argb (r g b a : Nat) (hr : r < 256) (hg : g < 256) (hb : b < 256)
    (ha : a < 256) :
    Cube.makeColor r g b a = a * 2 ^ 24 + r * 2 ^ 16 + g * 2 ^ 8 + b ∧
    Morphing.makeColor r g b a = a * 2 ^ 24 + r * 2 ^ 16 + g * 2 ^ 8 + b ∧
    Cube.makeColor r g b a < 2 ^ 32 := by
  have e := pack_bytes a r g b hr hg hb ha
  refine ⟨e, e, ?_⟩
  show ((a <<< 24) % 4294967296) ||| ((r <<< 16) % 4294967296) |||
    ((g <<< 8) % 4294967296) ||| b < 2 ^ 32
  rw [e]
  omega

/-- C17, witness: opaque yellow, `makeColor(255, 255, 0, 255) = 0xFFFFFF00`. -/
theorem makeColor_argb_witness :
    Cube.makeColor 255 255 0 255 = 255 * 2 ^ 24 + 255 * 2 ^ 16 + 255 * 2 ^ 8 + 0 ∧
    255 * 2 ^ 24 + 255 * 2 ^ 16 + 255 * 2 ^ 8 + 0 = 0xFFFFFF00 :=
  ⟨(makeColor_argb 255 255 0 255 (by decide) (by decide) (by decide) (by decide)).1,
    by decide⟩

/-- C18: in `01-rectangle`, `makeColor(r, g, b, a)` is
`r + g * 2^8 + b * 2^16 + a * 2^24` for all 8-bit `r`, `g`, `b`, `a`, so its bytes from
the least significant one are `r`, `g`, `b`, `a`; the four rectangle vertices all carry
the bytes `255, 165, 0, 255`. -/
theorem makeColor_abgr (r g b a : Nat) (hr : r < 256) (hg : g < 256) (hb : b < 256)
    (ha : a < 256) :
    Rectangle.makeColor r g b a = r + g * 2 ^ 8 + b * 2 ^ 16 + a * 2 ^ 24 ∧
    (List.range 4).map (byteAt (Rectangle.makeColor r g b a)) = [r, g, b, a] ∧
    Rectangle.vertices.length = 4 ∧
    ∀ v ∈ Rectangle.vertices, (List.range 4).map (byteAt v.color) = [255, 165, 0, 255] := by
  have e : Rectangle.makeColor r g b a = r + g * 2 ^ 8 + b * 2 ^ 16 + a * 2 ^ 24 := by
    have := pack_bytes a b g r hb hg hr ha
    simp only [Rectangle.makeColor]
    omega
  refine ⟨e, ?_, rfl, by decide⟩
  simp only [List.range, List.range.loop, List.map, byteAt, e, Nat.shiftRight_eq_div_pow]
  simp only [List.cons.injEq, and_true]
  refine ⟨?_, ?_, ?_, ?_⟩ <;> omega

/-- C18, witness: the orange of the rectangle. -/
theorem makeColor_abgr_witness :
    Rectangle.makeColor 255 165 0 255 = 255 + 165 * 2 ^ 8 + 0 * 2 ^ 16 + 255 * 2 ^ 24 :=
  (makeColor_abgr 255 165 0 255 (by decide) (by decide) (by decide) (by decide)).1

/-- C19: `CUBE_VERTICES` of `02-cube` has 24 entries; for each face `k = 0..5` the
four vertices `4k .. 4k+3` have one colour and lie in the plane the comment of the
face names, and the six face colours (red, green, blue, yellow, magenta, cyan, all
opaque) are pairwise distinct. -/
theorem cube_faces_uniform :
    Cube.CUBE_VERTICES.length = 24 ∧
    (∀ k, k < 6 → (Cube.face k).length = 4 ∧
      ∀ v ∈ Cube.face k, v.color = Cube.faceColor k ∧ Cube.inFacePlane k v = true) ∧
    (List.range 6).map Cube.faceColor =
      [0xFFFF0000, 0xFF00FF00, 0xFF0000FF, 0xFFFFFF00, 0xFFFF00FF, 0xFF00FFFF] ∧
    ((List.range 6).map Cube.faceColor).Nodup := by
  refine ⟨rfl, ?_, by decide, by decide⟩
  intro k hk
  interval_cases k <;>
    simp [Cube.face, Cube.CUBE_VERTICES, Cube.faceColor, Cube.inFacePlane]

/-- C20: in `01-triangle`, `02-cube` and `03-morphing` the byte size given to each
buffer descriptor is element count times element size (`36 = 3 * 12`, `6 = 3 * 2`,
`384 = 24 * 16`, `72 = 36 * 2`), every attribute is declared with `sizeof(Vertex)` as
stride (12, 16, 12) and its offset plus its size stays within the stride; the
declared array lengths are the lengths of the arrays. -/
theorem buffer_sizes_consistent :
    (Triangle.geometry.sizesConsistent ∧ Cube.geometry.sizesConsistent ∧
      Morphing.geometry.sizesConsistent) ∧
    (sizeofStruct Triangle.geometry.members = 12 ∧ sizeofStruct Cube.geometry.members = 16 ∧
      sizeofStruct Morphing.geometry.members = 12) ∧
    (Triangle.geometry.vertexBytes = 3 * 12 ∧ Triangle.geometry.indexBytes = 3 * 2 ∧
      Morphing.geometry.vertexBytes = 3 * 12 ∧ Morphing.geometry.indexBytes = 3 * 2 ∧
      Cube.geometry.vertexBytes = 24 * 16 ∧ Cube.geometry.indexBytes = 36 * 2) ∧
    ((∀ (cos sin : ℝ → ℝ) (M_PI : ℝ), (Triangle.TRIANGLE_VERTICES cos sin M_PI).length =
        Triangle.geometry.vertexArrayLength) ∧
      Cube.CUBE_VERTICES.length = Cube.geometry.vertexArrayLength ∧
      Morphing.TRIANGLE_VERTICES.length = Morphing.geometry.vertexArrayLength) := by
  refine ⟨by decide, by decide, by decide, fun _ _ _ => rfl, rfl, rfl⟩

/-! ## Further facts on the event handler of `01-triangle` -/

theorem TriangleRenderer.handleEvents_no_quit (es : List Event) :
    ∀ st : TriangleRenderer, Event.quit ∉ es →
      (handleEvents st es).2.1 = st.resized (lastResize es) := by
  induction es with
  | nil => intro st _; rfl
  | cons e es ih =>
      intro st hq
      have hq' : Event.quit ∉ es := fun h => hq (List.mem_cons_of_mem _ h)
      cases e with
      | quit => exact absurd (List.mem_cons_self _ _) hq
      | windowResized a b =>
          simp only [handleEvents, lastResize]
          rw [ih _ hq']
          cases lastResize es <;> rfl
      | other ty =>
          simp only [handleEvents, lastResize]
          exact ih st hq'

theorem TriangleRenderer.handleEvents_state_prefix (es : List Event) :
    ∀ st : TriangleRenderer,
      (handleEvents st es).2.1 = (handleEvents st (beforeFirstQuit es)).2.1 := by
  induction es with
  | nil => intro st; rfl
  | cons e es ih =>
      intro st
      cases e with
      | quit => rfl
      | windowResized a b =>
          have e1 : beforeFirstQuit (Event.windowResized a b :: es) =
              Event.windowResized a b :: beforeFirstQuit es := rfl
          rw [e1]
          simp only [handleEvents]
          exact ih _
      | other ty =>
          have e1 : beforeFirstQuit (Event.other ty :: es) =
              Event.other ty :: beforeFirstQuit es := rfl
          rw [e1]
          simp only [handleEvents]
          exact ih _

theorem beforeFirstQuit_no_quit (es : List Event) : Event.quit ∉ beforeFirstQuit es := by
  intro h
  have := List.mem_takeWhile_imp h
  simp at this

theorem beforeFirstQuit_of_no_quit (es : List Event) (h : Event.quit ∉ es) :
    beforeFirstQuit es = es := by
  unfold beforeFirstQuit
  rw [List.takeWhile_eq_self_iff]
  intro e he
  have : e ≠ Event.quit := fun h' => h (h' ▸ he)
  simpa using this

theorem beforeFirstQuit_append_quit (pre post : List Event) (h : Event.quit ∉ pre) :
    beforeFirstQuit (pre ++ Event.quit :: post) = pre := by
  induction pre with
  | nil => rfl
  | cons e es ih =>
      have he : e ≠ Event.quit := fun h' => h (h' ▸ List.mem_cons_self _ _)
      have hes : Event.quit ∉ es := fun h' => h (List.mem_cons_of_mem _ h')
      have hb : (e != Event.quit) = true := by simpa using he
      simp only [beforeFirstQuit, List.cons_append, List.takeWhile_cons, hb, if_true,
        List.cons.injEq, true_and]
      exact ih hes

/-! ## Claims on the geometry data, the last iteration and the event handler -/

/-- C21: over the reals, with the real cosine, sine and `π`, `TRIANGLE_VERTICES` of
`01-triangle` has the three positions `(1, 0)`, `(-1/2, √3/2)`, `(-1/2, -√3/2)`; any
two of them are at squared distance 3, and each is at squared distance (hence
distance) 1 from the origin. -/
theorem triangle_equilateral :
    (Triangle.TRIANGLE_VERTICES Real.cos Real.sin Real.pi).map Triangle.Vertex.position =
      [(1, 0), (-1 / 2, Real.sqrt 3 / 2), (-1 / 2, -(Real.sqrt 3 / 2))] ∧
    List.Pairwise (fun p q => sqDist p q = 3)
      ((Triangle.TRIANGLE_VERTICES Real.cos Real.sin Real.pi).map Triangle.Vertex.position) ∧
    ∀ p ∈ (Triangle.TRIANGLE_VERTICES Real.cos Real.sin Real.pi).map
        Triangle.Vertex.position,
      sqDist p (0, 0) = 1 ∧ Real.sqrt (sqDist p (0, 0)) = 1 := by
  have a1 : Real.pi * 2 / 3 = Real.pi - Real.pi / 3 := by ring
  have a2 : Real.pi * 4 / 3 = Real.pi / 3 + Real.pi := by ring
  have c1 : Real.cos (Real.pi * 2 / 3) = -1 / 2 := by
    rw [a1, Real.cos_pi_sub, Real.cos_pi_div_three]; ring
  have s1 : Real.sin (Real.pi * 2 / 3) = Real.sqrt 3 / 2 := by
    rw [a1, Real.sin_pi_sub, Real.sin_pi_div_three]
  have c2 : Real.cos (Real.pi * 4 / 3) = -1 / 2 := by
    rw [a2, Real.cos_add_pi, Real.cos_pi_div_three]; ring
  have s2 : Real.sin (Real.pi * 4 / 3) = -(Real.sqrt 3 / 2) := by
    rw [a2, Real.sin_add_pi, Real.sin_pi_div_three]
  have h3 : Real.sqrt 3 ^ 2 = 3 := Real.sq_sqrt (by norm_num)
  have e : (Triangle.TRIANGLE_VERTICES Real.cos Real.sin Real.pi).map
      Triangle.Vertex.position =
      [(1, 0), (-1 / 2, Real.sqrt 3 / 2), (-1 / 2, -(Real.sqrt 3 / 2))] := by
    simp only [Triangle.TRIANGLE_VERTICES, List.map, c1, s1, c2, s2]
  rw [e]
  refine ⟨rfl, ?_, ?_⟩
  · simp only [List.pairwise_cons, List.mem_cons, List.mem_singleton, List.not_mem_nil,
      forall_eq_or_imp, forall_eq, sqDist, List.Pairwise.nil, and_true, false_imp_iff,
      implies_true]
    refine ⟨⟨?_, ?_⟩, ?_⟩ <;> nlinarith [h3]
  · intro p hp
    simp only [List.mem_cons, List.mem_singleton, List.not_mem_nil, or_false] at hp
    have key : sqDist p (0, 0) = 1 := by
      rcases hp with rfl | rfl | rfl <;> simp only [sqDist] <;> nlinarith [h3]
    exact ⟨key, by rw [key, Real.sqrt_one]⟩

/-- C22: in `01-rectangle`, `01-triangle`, `02-cube`, `02-cube-map` and `03-morphing`
every entry of the index array is below the declared `vertexCount` (4, 3, 24, 24,
3), the declared `indexCount` (6, 3, 36, 36, 3) is the length of the index array,
and the ranges `(0, 3)`, `(0, 36)`, `(0, 3)` given to `geometry()` in `01-triangle`,
`02-cube`, `03-morphing` lie within the array; the other two give no range. -/
theorem index_arrays_valid :
    (Rectangle.geometry.indicesValid ∧ Triangle.geometry.indicesValid ∧
      Cube.geometry.indicesValid ∧ CubeMap.geometry.indicesValid ∧
      Morphing.geometry.indicesValid) ∧
    ([Rectangle.geometry, Triangle.geometry, Cube.geometry, CubeMap.geometry,
        Morphing.geometry].map (fun g => (g.vertexCount, g.indexCount, g.range)) =
      [(4, 6, none), (3, 3, some (0, 3)), (24, 36, some (0, 36)), (24, 36, none),
       (3, 3, some (0, 3))]) ∧
    (Rectangle.vertices.length = 4 ∧ Cube.CUBE_VERTICES.length = 24 ∧
      CubeMap.CUBE_VERTICES.length = 24 ∧ Morphing.TRIANGLE_VERTICES.length = 3) := by
  refine ⟨⟨⟨by decide, rfl, trivial⟩, ⟨by decide, rfl, ?_⟩, ⟨by decide, rfl, ?_⟩,
    ⟨by decide, rfl, trivial⟩, ⟨by decide, rfl, ?_⟩⟩, rfl, rfl, rfl, rfl, rfl⟩
  · show 0 + 3 ≤ 3
    decide
  · show 0 + 36 ≤ 36
    decide
  · show 0 + 3 ≤ 3
    decide

/-- C23: in `02-cube`, `CUBE_INDICES` has 36 entries, each of its 12 triangles faces
away from the origin (the cross product of its two edges from the first corner has
a positive dot product with its centroid), and the six indices of face `k` are
drawn from `4k .. 4k+3` and contain each of these four. -/
theorem cube_triangles_outward :
    Cube.CUBE_INDICES.length = 36 ∧
    (∀ j, j < 12 → Cube.outwardFacing j) ∧
    (∀ k, k < 6 → ∀ i, i < 4 → 4 * k + i ∈ Cube.faceIndices k) ∧
    (∀ k, k < 6 → ∀ i ∈ Cube.faceIndices k, 4 * k ≤ i ∧ i < 4 * k + 4) := by
  refine ⟨rfl, ?_, by decide, by decide⟩
  intro j hj
  interval_cases j <;>
    norm_num [Cube.outwardFacing, Cube.CUBE_INDICES, Cube.position, Cube.CUBE_VERTICES,
      vsub, cross, dot, centroid]

/-- C24: from the start of an iteration of an inline loop (`running` is `true`) in
which a quit event is polled, the loop makes exactly this one iteration: all
pending events are polled, then the animation update of the demo is made
(`setTransform` in `02-cube`, `02-cube-map`, `02-cube-obj`, `04-pbr`, `setMorphWeights` in
`03-morphing`, none in `01-rectangle`), then `beginFrame` is called once, followed by
`render` and `endFrame` when it returns `true`; only then does the loop end.  In
`01-triangle` the loop ends with the calls of `handleEvents()`, none of which is a
call of `render()`. -/
theorem quit_iteration (p : Program) (s : LoopState) (f : Frame) (rest : List Frame)
    (hs : s.running = true) (hq : Event.quit ∈ f.events) :
    (mainLoop p s (f :: rest) = some (pollEvents s f.events,
        pollTrace f.events ++ animation p ++ renderFrame p f.beginFrame) ∧
      (renderFrame p f.beginFrame).filter Call.isFrameCall =
        (if f.beginFrame then [.beginFrame true, .render, .endFrame]
         else [.beginFrame false]) ∧
      (animation .cube = [.setTransform] ∧ animation .cubeMap = [.setTransform] ∧
        animation .cubeObj = [.setTransform] ∧ animation .pbr = [.setTransform] ∧
        animation .morphing = [.setMorphWeights] ∧ animation .rectangle = [])) ∧
    ∀ st : TriangleRenderer,
      TriangleRenderer.run st (f :: rest) =
        some ((TriangleRenderer.handleEvents st f.events).2.1,
          (TriangleRenderer.handleEvents st f.events).2.2) ∧
      (TriangleRenderer.handleEvents st f.events).2.2.filter Call.inRenderMethod = [] := by
  refine ⟨⟨?_, ?_, rfl, rfl, rfl, rfl, rfl, rfl⟩, ?_⟩
  · have h1 : (pollEvents s f.events).running = false := pollEvents_quit _ hq s
    cases rest <;> simp [mainLoop, hs, h1, frameBody]
  · cases p <;> cases f.beginFrame <;> rfl
  · intro st
    have h1 : (TriangleRenderer.handleEvents st f.events).1 = false := by
      rw [TriangleRenderer.handleEvents_flag]; simp [hq]
    exact ⟨by simp only [TriangleRenderer.run, h1, Bool.false_eq_true, if_false],
      TriangleRenderer.filter_handleEvents _ (fun _ => rfl) (fun _ => rfl) _ st⟩

/-- C24, witness: an iteration of `02-cube` that polls a quit event followed by another
event, with a frame that begins. -/
theorem quit_iteration_witness :
    mainLoop .cube initialLoopState [⟨[.quit, .other 7], true⟩, ⟨[], true⟩] =
      some (pollEvents initialLoopState [.quit, .other 7],
        pollTrace [.quit, .other 7] ++ animation .cube ++ renderFrame .cube true) :=
  (quit_iteration .cube initialLoopState ⟨[.quit, .other 7], true⟩ [⟨[], true⟩] rfl
    (by decide)).1.1

/-- C25: in `01-triangle`, for every queue `es`: `handleEvents()` returns `false` exactly
when `es` contains a quit event; the members afterwards are those obtained by
handling only the events in front of the first quit, namely width, height and
viewport of the last resize event among these (unchanged when there is none), so
nothing queued after the quit has any effect; and when it returns `true` they are
those of the last resize event of the whole queue. -/
theorem handleEvents_spec (st : TriangleRenderer) (es : List Event) :
    ((TriangleRenderer.handleEvents st es).1 = false ↔ Event.quit ∈ es) ∧
    (TriangleRenderer.handleEvents st es).2.1 =
      (TriangleRenderer.handleEvents st (beforeFirstQuit es)).2.1 ∧
    (TriangleRenderer.handleEvents st es).2.1 = st.resized (lastResize (beforeFirstQuit es)) ∧
    (∀ pre post : List Event, Event.quit ∉ pre → es = pre ++ Event.quit :: post →
      (TriangleRenderer.handleEvents st es).1 = false ∧
      (TriangleRenderer.handleEvents st es).2.1 = st.resized (lastResize pre)) ∧
    ((TriangleRenderer.handleEvents st es).1 = true →
      (TriangleRenderer.handleEvents st es).2.1 = st.resized (lastResize es)) := by
  have hflag : (TriangleRenderer.handleEvents st es).1 = false ↔ Event.quit ∈ es := by
    rw [TriangleRenderer.handleEvents_flag]; simp
  have hpre := TriangleRenderer.handleEvents_state_prefix es st
  have hres : (TriangleRenderer.handleEvents st es).2.1 =
      st.resized (lastResize (beforeFirstQuit es)) := by
    rw [hpre]
    exact TriangleRenderer.handleEvents_no_quit _ st (beforeFirstQuit_no_quit es)
  refine ⟨hflag, hpre, hres, ?_, ?_⟩
  · intro pre post hq he
    refine ⟨hflag.2 (by rw [he]; simp), ?_⟩
    rw [hres, he, beforeFirstQuit_append_quit pre post hq]
  · intro ht
    have hq : Event.quit ∉ es := fun h => by
      rw [hflag.2 h] at ht
      exact Bool.false_ne_true ht
    rw [hres, beforeFirstQuit_of_no_quit es hq]

/-- C25, witness: two resize events, a quit, and a third resize that is not applied. -/
theorem handleEvents_spec_witness :
    (TriangleRenderer.handleEvents TriangleRenderer.new
      [.windowResized 640 480, .windowResized 1024 768, .quit, .windowResized 320 200]).1
        = false ∧
    (TriangleRenderer.handleEvents TriangleRenderer.new
      [.windowResized 640 480, .windowResized 1024 768, .quit, .windowResized 320 200]).2.1
        = TriangleRenderer.new.resized
            (lastResize [.windowResized 640 480, .windowResized 1024 768]) :=
  (handleEvents_spec TriangleRenderer.new
    [.windowResized 640 480, .windowResized 1024 768, .quit, .windowResized 320 200]).2.2.2.1
    [.windowResized 640 480, .windowResized 1024 768] [.windowResized 320 200]
    (by decide) rfl

/-! ## The end of the loop: final state and calls -/

theorem roundHalfEven_eq (q : ℚ) (n : ℤ) (h : |q - n| < 1 / 2) : roundHalfEven q = n := by
  rw [abs_lt] at h
  unfold roundHalfEven
  by_cases hq : (n : ℚ) ≤ q
  · have hf : ⌊q⌋ = n := by
      rw [Int.floor_eq_iff]
      constructor
      · exact hq
      · linarith
    rw [hf]
    rw [if_pos h.2]
  · push_neg at hq
    have hf : ⌊q⌋ = n - 1 := by
      rw [Int.floor_eq_iff]
      push_cast
      constructor <;> linarith
    rw [hf]
    push_cast
    have h1 : ¬ (q - (n - 1) < 1 / 2) := by linarith
    have h2 : (1 : ℚ) / 2 < q - (n - 1) := by linarith
    simp only [h1, h2, if_false, if_true]
    ring

theorem roundHalfEven_near (q : ℚ) : |(roundHalfEven q : ℚ) - q| ≤ 1 / 2 := by
  have h1 : (⌊q⌋ : ℚ) ≤ q := Int.floor_le q
  have h2 : q < ⌊q⌋ + 1 := Int.lt_floor_add_one q
  unfold roundHalfEven
  rw [abs_le]
  split_ifs with a b c
  · constructor <;> linarith
  · push_cast; constructor <;> linarith
  · push_neg at a b
    constructor <;> linarith
  · push_neg at a b
    push_cast
    constructor <;> linarith

theorem roundHalfEven_tie (n : ℤ) :
    roundHalfEven (n + 1 / 2) = if n % 2 = 0 then n else n + 1 := by
  have hf : ⌊(n : ℚ) + 1 / 2⌋ = n := by
    rw [Int.floor_eq_iff]
    constructor <;> linarith
  unfold roundHalfEven
  rw [hf]
  have h1 : ¬ ((n : ℚ) + 1 / 2 - n < 1 / 2) := by simp
  have h2 : ¬ ((1 : ℚ) / 2 < (n : ℚ) + 1 / 2 - n) := by simp
  simp only [h1, h2, if_false]

theorem log_two_eq (x : ℚ) (e : ℤ) (h1 : (2 : ℚ) ^ e ≤ |x|) (h2 : |x| < 2 ^ (e + 1)) :
    Int.log 2 |x| = e := by
  have hpos : (0 : ℚ) < |x| := lt_of_lt_of_le (by positivity) h1
  have a : e ≤ Int.log 2 |x| := by
    have := (Int.zpow_le_iff_le_log (b := 2) (by norm_num) hpos (x := e)).1 (by exact_mod_cast h1)
    exact this
  have b : Int.log 2 |x| < e + 1 := by
    have := (Int.lt_zpow_iff_log_lt (b := 2) (by norm_num) hpos (x := e + 1)).1
      (by exact_mod_cast h2)
    exact this
  omega

theorem ulp_eq (prec : ℕ) (emin e : ℤ) (x : ℚ) (h1 : (2 : ℚ) ^ e ≤ |x|)
    (h2 : |x| < 2 ^ (e + 1)) (he : emin ≤ e) : ulp prec emin x = 2 ^ (e - (prec - 1)) := by
  unfold ulp
  rw [log_two_eq x e h1 h2, max_eq_left he]

theorem roundBinary_eq (prec : ℕ) (emin e : ℤ) (x : ℚ) (n : ℤ) (h1 : (2 : ℚ) ^ e ≤ |x|)
    (h2 : |x| < 2 ^ (e + 1)) (he : emin ≤ e)
    (hn : roundHalfEven (x / 2 ^ (e - (prec - 1))) = n) :
    roundBinary prec emin x = n * 2 ^ (e - (prec - 1)) := by
  have hx : x ≠ 0 := by
    intro h
    rw [h, abs_zero] at h1
    exact absurd h1 (not_le.2 (by positivity))
  unfold roundBinary
  rw [if_neg hx, ulp_eq prec emin e x h1 h2 he, hn]

theorem M_PI_eq : M_PI = 884279719003555 / 281474976710656 := by
  unfold M_PI toDouble
  rw [roundBinary_eq 53 (-1022) 1 _ 7074237752028440 (by norm_num [abs_of_pos])
    (by norm_num [abs_of_pos]) (by norm_num)]
  · norm_num
  · apply roundHalfEven_eq
    norm_num [abs_lt]

theorem roundBinary_zero (prec : ℕ) (emin : ℤ) : roundBinary prec emin 0 = 0 := by
  simp [roundBinary]

theorem roundBinary_exact (prec : ℕ) (emin e : ℤ) (x : ℚ) (n : ℤ) (h1 : (2 : ℚ) ^ e ≤ |x|)
    (h2 : |x| < 2 ^ (e + 1)) (he : emin ≤ e) (hx : x = n * 2 ^ (e - (prec - 1))) :
    roundBinary prec emin x = x := by
  rw [roundBinary_eq prec emin e x n h1 h2 he, ← hx]
  apply roundHalfEven_eq
  have hp : (2 : ℚ) ^ (e - ((prec : ℤ) - 1)) ≠ 0 := by positivity
  have : x / 2 ^ (e - ((prec : ℤ) - 1)) = n := by
    rw [div_eq_iff hp]; exact hx
  rw [this]
  simp

theorem ulp_pos (prec : ℕ) (emin : ℤ) (x : ℚ) : 0 < ulp prec emin x := by
  unfold ulp; positivity

theorem roundBinary_near (prec : ℕ) (emin : ℤ) (x : ℚ) :
    |roundBinary prec emin x - x| ≤ ulp prec emin x / 2 := by
  have hu := ulp_pos prec emin x
  unfold roundBinary
  split_ifs with h
  · rw [h]; simp; exact le_of_lt (by simpa using ulp_pos prec emin 0)
  · have h1 := roundHalfEven_near (x / ulp prec emin x)
    have e : (roundHalfEven (x / ulp prec emin x) : ℚ) * ulp prec emin x - x =
        ((roundHalfEven (x / ulp prec emin x) : ℚ) - x / ulp prec emin x) * ulp prec emin x := by
      field_simp
    rw [e, abs_mul, abs_of_pos hu]
    calc |(roundHalfEven (x / ulp prec emin x) : ℚ) - x / ulp prec emin x| * ulp prec emin x
        ≤ 1 / 2 * ulp prec emin x := by
          exact mul_le_mul_of_nonneg_right h1 (le_of_lt hu)
      _ = ulp prec emin x / 2 := by ring

theorem ulp_le (prec : ℕ) (emin e : ℤ) (x : ℚ) (hx : x ≠ 0) (h2 : |x| < 2 ^ (e + 1))
    (he : emin ≤ e) : ulp prec emin x ≤ 2 ^ (e - (prec - 1)) := by
  have hpos : (0 : ℚ) < |x| := abs_pos.2 hx
  have b : Int.log 2 |x| < e + 1 :=
    (Int.lt_zpow_iff_log_lt (b := 2) (by norm_num) hpos (x := e + 1)).1 (by exact_mod_cast h2)
  unfold ulp
  apply zpow_le_zpow_right₀ (by norm_num)
  have : max (Int.log 2 |x|) emin ≤ e := max_le (by omega) he
  omega

theorem roundBinary_err (prec : ℕ) (emin e : ℤ) (x : ℚ) (h2 : |x| < 2 ^ (e + 1))
    (he : emin ≤ e) : |roundBinary prec emin x - x| ≤ 2 ^ (e - (prec - 1)) / 2 := by
  by_cases hx : x = 0
  · rw [hx, roundBinary_zero]; simp; positivity
  · exact le_trans (roundBinary_near prec emin x)
      (div_le_div_of_nonneg_right (ulp_le prec emin e x hx h2 he) (by norm_num))

theorem fmod_small {K : Type} [LinearOrderedField K] [FloorRing K] (t : K) (h0 : 0 ≤ t)
    (h1 : t < 16) : fmod t 16 = t := by
  have h : ⌊t / 16⌋ = 0 := by
    rw [Int.floor_eq_zero_iff]
    constructor
    · positivity
    · rw [div_lt_one (by norm_num)]; exact h1
  have h2 : (0 : K) ≤ t / 16 := by positivity
  simp [fmod, h2, h]

theorem toFloat_zero : toFloat 0 = 0 := roundBinary_zero _ _

theorem toDouble_zero : toDouble 0 = 0 := roundBinary_zero _ _

theorem toFloat_one : toFloat 1 = 1 :=
  roundBinary_exact 24 (-126) 0 1 8388608 (by norm_num) (by norm_num) (by norm_num) (by norm_num)

theorem toFloat_eight : toFloat 8 = 8 :=
  roundBinary_exact 24 (-126) 3 8 8388608 (by norm_num) (by norm_num) (by norm_num) (by norm_num)

theorem toFloat_sixteen : toFloat 16 = 16 :=
  roundBinary_exact 24 (-126) 4 16 8388608 (by norm_num) (by norm_num) (by norm_num)
    (by norm_num)

theorem toFloat_8000 : toFloat 8000 = 8000 :=
  roundBinary_exact 24 (-126) 12 8000 16384000 (by norm_num) (by norm_num) (by norm_num)
    (by norm_num)

theorem toFloat_16000 : toFloat 16000 = 16000 :=
  roundBinary_exact 24 (-126) 13 16000 16384000 (by norm_num) (by norm_num) (by norm_num)
    (by norm_num)

theorem toFloat_6283 : toFloat 6283 = 6283 :=
  roundBinary_exact 24 (-126) 12 6283 12867584 (by norm_num) (by norm_num) (by norm_num)
    (by norm_num)

theorem toDouble_two_M_PI : toDouble (2 * M_PI) = 2 * M_PI := by
  rw [M_PI_eq]
  exact roundBinary_exact 53 (-1022) 2 _ 7074237752028440 (by norm_num [abs_of_pos])
    (by norm_num [abs_of_pos]) (by norm_num) (by norm_num)

theorem toFloat_two_M_PI : toFloat (2 * M_PI) = 13176795 / 2097152 := by
  rw [M_PI_eq]
  unfold toFloat
  rw [roundBinary_eq 24 (-126) 2 _ 13176795 (by norm_num [abs_of_pos])
    (by norm_num [abs_of_pos]) (by norm_num)]
  · norm_num
  · apply roundHalfEven_eq
    norm_num [abs_lt]

theorem time_0 : time 0 = 0 := by
  simp [time, toFloat_zero]

theorem time_8000 : time 8000 = 8 := by
  have e : ((8000 : ℕ) : ℚ) = 8000 := by norm_num
  have e2 : (8000 : ℚ) / 1000 = 8 := by norm_num
  rw [time, e, toFloat_8000, e2, toFloat_eight]

theorem time_16000 : time 16000 = 16 := by
  have e : ((16000 : ℕ) : ℚ) = 16000 := by norm_num
  have e2 : (16000 : ℚ) / 1000 = 16 := by norm_num
  rw [time, e, toFloat_16000, e2, toFloat_sixteen]

theorem time_6283 : time 6283 = 13176406 / 2097152 := by
  have e : ((6283 : ℕ) : ℚ) = 6283 := by norm_num
  rw [time, e, toFloat_6283]
  unfold toFloat
  rw [roundBinary_eq 24 (-126) 2 _ 13176406 (by norm_num [abs_of_pos])
    (by norm_num [abs_of_pos]) (by norm_num)]
  · norm_num
  · apply roundHalfEven_eq
    norm_num [abs_lt]

theorem twoStageRotationFloat_zero : twoStageRotationFloat 0 = (0, 0) := by
  have e : fmod (0 : ℚ) 16 = 0 := fmod_small 0 (by norm_num) (by norm_num)
  simp [twoStageRotationFloat, e, toFloat_zero, toDouble_zero]

theorem twoStageRotationFloat_sixteen : twoStageRotationFloat 16 = (0, 0) := by
  have e : fmod (16 : ℚ) 16 = 0 := by
    have h : ⌊(16 : ℚ) / 16⌋ = 1 := by norm_num
    have h0 : (0 : ℚ) ≤ 16 / 16 := by norm_num
    simp only [fmod, h0, if_true, h]
    norm_num
  simp [twoStageRotationFloat, e, toFloat_zero, toDouble_zero]

theorem twoStageRotationFloat_eight : twoStageRotationFloat 8 = (13176795 / 2097152, 0) := by
  have e : fmod (8 : ℚ) 16 = 8 := fmod_small 8 (by norm_num) (by norm_num)
  have h : ¬ ((8 : ℚ) < 8) := by norm_num
  unfold twoStageRotationFloat
  simp only [e, toFloat_eight, h, if_false, toDouble_two_M_PI, toFloat_two_M_PI, sub_self,
    toFloat_zero, zero_div, zero_mul, toDouble_zero]

theorem held_angle_above_two_pi :
    2 * Real.pi < ((13176795 / 2097152 : ℚ) : ℝ) ∧
    ((13176795 / 2097152 : ℚ) : ℝ) < 2 * Real.pi + 2 / 10 ^ 7 := by
  have h1 := Real.pi_gt_d20
  have h2 := Real.pi_lt_d20
  constructor
  · push_cast
    norm_num at h2 ⊢
    linarith
  · push_cast
    norm_num at h1 ⊢
    linarith

theorem toFloat_one_sub (w : ℚ) (h0 : 0 ≤ w) (h1 : w ≤ 1) :
    |toFloat (1 - w) + w - 1| ≤ 1 / 2 ^ 25 := by
  by_cases hw : w = 0
  · rw [hw, sub_zero, toFloat_one]; norm_num
  · have hpos : 0 < w := lt_of_le_of_ne h0 (Ne.symm hw)
    have h2 : |1 - w| < 2 ^ ((-1 : ℤ) + 1) := by
      rw [abs_lt]; constructor <;> norm_num <;> linarith
    have h3 := roundBinary_err 24 (-126) (-1) (1 - w) h2 (by norm_num)
    have e : toFloat (1 - w) + w - 1 = roundBinary 24 (-126) (1 - w) - (1 - w) := by
      unfold toFloat; ring
    rw [e]
    refine le_trans h3 (le_of_eq ?_)
    norm_num

theorem weight_6283_double (s : ℚ) (hs : |s - (-185314808 / 10 ^ 12)| ≤ 1 / 10 ^ 9) :
    toFloat (toDouble (toDouble (s / 2) + 1 / 2)) = 16774107 / 33554432 := by
  rw [abs_le] at hs
  obtain ⟨hs1, hs2⟩ := hs
  have h1 : |s / 2| < 2 ^ ((-14 : ℤ) + 1) := by
    rw [abs_lt]; constructor <;> norm_num <;> linarith
  have a1 := roundBinary_err 53 (-1022) (-14) (s / 2) h1 (by norm_num)
  rw [abs_le] at a1
  obtain ⟨a11, a12⟩ := a1
  norm_num at a11 a12
  have h2 : |toDouble (s / 2) + 1 / 2| < 2 ^ ((-2 : ℤ) + 1) := by
    unfold toDouble
    rw [abs_lt]; constructor <;> norm_num <;> linarith
  have a2 := roundBinary_err 53 (-1022) (-2) (toDouble (s / 2) + 1 / 2) h2 (by norm_num)
  rw [abs_le] at a2
  obtain ⟨a21, a22⟩ := a2
  norm_num at a21 a22
  unfold toDouble at a21 a22 ⊢
  unfold toFloat
  rw [roundBinary_eq 24 (-126) (-2) _ 16774107
    (by rw [abs_of_pos (by linarith)]; norm_num; linarith)
    (by rw [abs_of_pos (by linarith)]; norm_num; linarith) (by norm_num)]
  · norm_num
  · apply roundHalfEven_eq
    rw [abs_lt]
    norm_num
    constructor <;> linarith

theorem toFloat_weight_6283 : toFloat (16774107 / 33554432) = 16774107 / 33554432 :=
  roundBinary_exact 24 (-126) (-2) _ 16774107 (by norm_num [abs_of_pos])
    (by norm_num [abs_of_pos]) (by norm_num) (by norm_num)

theorem weight_6283_float (s : ℚ) (hs : |s - (-185314808 / 10 ^ 12)| ≤ 1 / 10 ^ 9) :
    toFloat (toFloat (toFloat (s / 2) + 1 / 2)) = 16774107 / 33554432 := by
  rw [abs_le] at hs
  obtain ⟨hs1, hs2⟩ := hs
  have h1 : |s / 2| < 2 ^ ((-14 : ℤ) + 1) := by
    rw [abs_lt]; constructor <;> norm_num <;> linarith
  have a1 := roundBinary_err 24 (-126) (-14) (s / 2) h1 (by norm_num)
  rw [abs_le] at a1
  obtain ⟨a11, a12⟩ := a1
  norm_num at a11 a12
  have e : toFloat (toFloat (s / 2) + 1 / 2) = 16774107 / 33554432 := by
    unfold toFloat
    rw [roundBinary_eq 24 (-126) (-2) _ 16774107
      (by rw [abs_of_pos (by linarith)]; norm_num; linarith)
      (by rw [abs_of_pos (by linarith)]; norm_num; linarith) (by norm_num)]
    · norm_num
    · apply roundHalfEven_eq
      rw [abs_lt]
      norm_num
      constructor <;> linarith
  rw [e, toFloat_weight_6283]

theorem toFloat_one_sub_weight_6283 :
    toFloat (1 - 16774107 / 33554432) = 4195081 / 8388608 := by
  unfold toFloat
  rw [roundBinary_eq 24 (-126) (-1) _ 8390162 (by norm_num [abs_of_pos])
    (by norm_num [abs_of_pos]) (by norm_num)]
  · norm_num
  · have e : ((1 : ℚ) - 16774107 / 33554432) / 2 ^ ((-1 : ℤ) - (((24 : ℕ) : ℤ) - 1)) =
        ((8390162 : ℤ) : ℚ) + 1 / 2 := by norm_num
    rw [e, roundHalfEven_tie]
    decide

theorem weightsFloat_6283 (sin : ℚ → ℚ)
    (hs : |sin (time 6283) - (-185314808 / 10 ^ 12)| ≤ 1 / 10 ^ 9) :
    weightsFloat toDouble sin (time 6283) = (4195081 / 8388608, 16774107 / 33554432) ∧
    weightsFloat toFloat sin (time 6283) = (4195081 / 8388608, 16774107 / 33554432) := by
  unfold weightsFloat morphWeightFloat
  rw [weight_6283_double _ hs, weight_6283_float _ hs, toFloat_one_sub_weight_6283]
  exact ⟨rfl, rfl⟩

theorem sin_6283 :
    |Real.sin ((13176406 / 2097152 : ℚ) : ℝ) - (-185314808 / 10 ^ 12)| ≤ 1 / 10 ^ 11 := by
  have h1 := Real.pi_gt_d20
  have h2 := Real.pi_lt_d20
  norm_num at h1 h2
  have hy0 : 0 < 2 * Real.pi - 13176406 / 2097152 := by linarith
  have hy1 : 2 * Real.pi - 13176406 / 2097152 ≤ 1 / 5000 := by linarith
  have e : Real.sin ((13176406 / 2097152 : ℚ) : ℝ) =
      -Real.sin (2 * Real.pi - 13176406 / 2097152) := by
    rw [Real.sin_two_pi_sub, neg_neg]
    push_cast
    rfl
  have b1 := Real.sin_lt hy0
  have b2 := Real.sin_gt_sub_cube hy0 (by linarith)
  have b3 : (2 * Real.pi - 13176406 / 2097152) ^ 3 ≤ (1 / 5000) ^ 3 :=
    pow_le_pow_left₀ (le_of_lt hy0) hy1 3
  rw [e, abs_le]
  constructor <;> norm_num at b3 ⊢ <;> linarith

theorem roundHalfEven_int (n : ℤ) : roundHalfEven (n : ℚ) = n :=
  roundHalfEven_eq _ n (by simp)

theorem roundHalfEven_mono (q r : ℚ) (h : q ≤ r) : roundHalfEven q ≤ roundHalfEven r := by
  have q1 : (⌊q⌋ : ℚ) ≤ q := Int.floor_le q
  have q2 : q < ⌊q⌋ + 1 := Int.lt_floor_add_one q
  have r1 : (⌊r⌋ : ℚ) ≤ r := Int.floor_le r
  have r2 : r < ⌊r⌋ + 1 := Int.lt_floor_add_one r
  have hfl : ⌊q⌋ ≤ ⌊r⌋ := Int.floor_mono h
  have hq : roundHalfEven q ≤ ⌊q⌋ + 1 := by
    unfold roundHalfEven; split_ifs <;> omega
  have hr : ⌊r⌋ ≤ roundHalfEven r := by
    unfold roundHalfEven; split_ifs <;> omega
  rcases lt_or_eq_of_le hfl with hlt | heq
  · omega
  · have hc : (⌊q⌋ : ℚ) = ⌊r⌋ := by rw [heq]
    unfold roundHalfEven
    rw [heq]
    rw [hc] at q1 q2
    split_ifs <;> first | omega | (exfalso; linarith)

theorem roundBinary_nonneg (prec : ℕ) (emin : ℤ) (x : ℚ) (h : 0 ≤ x) :
    0 ≤ roundBinary prec emin x := by
  unfold roundBinary
  split_ifs
  · exact le_refl 0
  · have hu := ulp_pos prec emin x
    have h1 : 0 ≤ x / ulp prec emin x := div_nonneg h (le_of_lt hu)
    have h2 := roundHalfEven_mono 0 _ h1
    have h3 : roundHalfEven 0 = 0 := by simpa using roundHalfEven_int 0
    rw [h3] at h2
    have h4 : (0 : ℚ) ≤ (roundHalfEven (x / ulp prec emin x) : ℚ) := by exact_mod_cast h2
    exact mul_nonneg h4 (le_of_lt hu)

/-- A number in `[0, 2 ^ k]` is rounded to a number in `[0, 2 ^ k]`. -/
theorem roundBinary_le_two_pow (prec : ℕ) (emin k : ℤ) (x : ℚ) (hk : emin ≤ k)
    (hp : 1 ≤ prec) (h0 : 0 ≤ x) (h : x ≤ 2 ^ k) : roundBinary prec emin x ≤ 2 ^ k := by
  by_cases hx : x = 0
  · rw [hx, roundBinary_zero]; positivity
  have hpos : 0 < x := lt_of_le_of_ne h0 (Ne.symm hx)
  have habs : |x| = x := abs_of_pos hpos
  have hlog : Int.log 2 |x| ≤ k := by
    rw [habs]
    have := (Int.zpow_le_iff_le_log (b := 2) (by norm_num) hpos (x := Int.log 2 x)).2 le_rfl
    by_contra hc
    push_neg at hc
    have h3 : ((2 : ℕ) : ℚ) ^ (k + 1) ≤ x :=
      (Int.zpow_le_iff_le_log (b := 2) (by norm_num) hpos (x := k + 1)).2 (by omega)
    have h4 : (2 : ℚ) ^ k < 2 ^ (k + 1) := zpow_lt_zpow_right₀ (by norm_num) (by omega)
    have h5 : (2 : ℚ) ^ (k + 1) ≤ x := by exact_mod_cast h3
    linarith
  have hm : max (Int.log 2 |x|) emin ≤ k := max_le hlog hk
  have hu := ulp_pos prec emin x
  obtain ⟨m, hm2⟩ : ∃ m : ℕ, (m : ℤ) = k - (max (Int.log 2 |x|) emin - (prec - 1)) :=
    ⟨(k - (max (Int.log 2 |x|) emin - (prec - 1))).toNat, Int.toNat_of_nonneg (by omega)⟩
  have hN : ((2 ^ m : ℤ) : ℚ) * ulp prec emin x = 2 ^ k := by
    unfold ulp
    push_cast
    rw [← zpow_natCast, hm2, ← zpow_add₀ (by norm_num)]
    congr 1
    ring
  unfold roundBinary
  rw [if_neg hx]
  have h1 : x / ulp prec emin x ≤ ((2 ^ m : ℤ) : ℚ) := by
    rw [div_le_iff₀ hu, hN]; exact h
  have h2 := roundHalfEven_mono _ _ h1
  rw [roundHalfEven_int] at h2
  have h3 : (roundHalfEven (x / ulp prec emin x) : ℚ) ≤ ((2 ^ m : ℤ) : ℚ) := by exact_mod_cast h2
  calc (roundHalfEven (x / ulp prec emin x) : ℚ) * ulp prec emin x
      ≤ ((2 ^ m : ℤ) : ℚ) * ulp prec emin x := mul_le_mul_of_nonneg_right h3 (le_of_lt hu)
    _ = 2 ^ k := hN

theorem roundHalfEven_neg (q : ℚ) : roundHalfEven (-q) = -roundHalfEven q := by
  have q1 : (⌊q⌋ : ℚ) ≤ q := Int.floor_le q
  have q2 : q < ⌊q⌋ + 1 := Int.lt_floor_add_one q
  by_cases ht : q - ⌊q⌋ = 1 / 2
  · have e : q = ((⌊q⌋ : ℤ) : ℚ) + 1 / 2 := by linarith
    have e2 : -q = ((-⌊q⌋ - 1 : ℤ) : ℚ) + 1 / 2 := by push_cast; linarith
    rw [e2]
    nth_rewrite 2 [e]
    rw [roundHalfEven_tie, roundHalfEven_tie]
    split_ifs <;> omega
  · apply roundHalfEven_eq
    have h := roundHalfEven_near q
    have hne : (roundHalfEven q : ℚ) - q ≠ 1 / 2 ∧ (roundHalfEven q : ℚ) - q ≠ -(1 / 2) := by
      unfold roundHalfEven
      split_ifs with a b c
      · constructor <;> intro h' <;> linarith
      · push_cast; constructor <;> intro h' <;> [exact ht (by linarith); linarith]
      · exact absurd (le_antisymm (not_lt.1 b) (not_lt.1 a)) ht
      · exact absurd (le_antisymm (not_lt.1 b) (not_lt.1 a)) ht
    rw [abs_le] at h
    rw [abs_lt]
    push_cast
    have g1 : (roundHalfEven q : ℚ) - q < 1 / 2 := lt_of_le_of_ne h.2 hne.1
    have g2 : -(1 / 2) < (roundHalfEven q : ℚ) - q := lt_of_le_of_ne h.1 (Ne.symm hne.2)
    constructor <;> linarith

theorem roundBinary_neg (prec : ℕ) (emin : ℤ) (x : ℚ) :
    roundBinary prec emin (-x) = -roundBinary prec emin x := by
  have hu : ulp prec emin (-x) = ulp prec emin x := by unfold ulp; rw [abs_neg]
  unfold roundBinary
  by_cases hx : x = 0
  · simp [hx]
  · rw [if_neg hx, if_neg (by simpa using hx), hu, neg_div, roundHalfEven_neg]
    push_cast
    ring

/-- A number in `[-2 ^ k, 2 ^ k]` is rounded to a number in `[-2 ^ k, 2 ^ k]`. -/
theorem roundBinary_abs_le_two_pow (prec : ℕ) (emin k : ℤ) (x : ℚ) (hk : emin ≤ k)
    (hp : 1 ≤ prec) (h : |x| ≤ 2 ^ k) : |roundBinary prec emin x| ≤ 2 ^ k := by
  rw [abs_le] at h
  rw [abs_le]
  by_cases h0 : 0 ≤ x
  · have h1 := roundBinary_nonneg prec emin x h0
    have h2 := roundBinary_le_two_pow prec emin k x hk hp h0 h.2
    have h3 : (0 : ℚ) < 2 ^ k := by positivity
    constructor <;> linarith
  · push_neg at h0
    have h1 := roundBinary_nonneg prec emin (-x) (by linarith)
    have h2 := roundBinary_le_two_pow prec emin k (-x) hk hp (by linarith) (by linarith)
    rw [roundBinary_neg] at h1 h2
    have h3 : (0 : ℚ) < 2 ^ k := by positivity
    constructor <;> linarith

theorem morphWeightFloat_bounds (prec : ℕ) (emin : ℤ) (hp : 1 ≤ prec) (he : emin ≤ -1)
    (sin : ℚ → ℚ) (t : ℚ) (hs : |sin t| ≤ 1) :
    0 ≤ morphWeightFloat (roundBinary prec emin) sin t ∧
    morphWeightFloat (roundBinary prec emin) sin t ≤ 1 := by
  have h1 : |sin t / 2| ≤ 2 ^ (-1 : ℤ) := by
    rw [abs_div]; norm_num; linarith
  have h2 := roundBinary_abs_le_two_pow prec emin (-1) _ he hp h1
  rw [abs_le] at h2
  norm_num at h2
  have h3 : 0 ≤ roundBinary prec emin (sin t / 2) + 1 / 2 := by linarith
  have h4 : roundBinary prec emin (sin t / 2) + 1 / 2 ≤ 2 ^ (0 : ℤ) := by norm_num; linarith
  have h5 := roundBinary_nonneg prec emin _ h3
  have h6 := roundBinary_le_two_pow prec emin 0 _ (by omega) hp h3 h4
  unfold morphWeightFloat toFloat
  exact ⟨roundBinary_nonneg _ _ _ h5,
    by simpa using roundBinary_le_two_pow 24 (-126) 0 _ (by norm_num) (by norm_num) h5 h6⟩

/-- C7, counterexample: as the code computes it, at elapsed time 8.0 s (a count of
8000 ms) the horizontal rotation is 13176795 / 2097152 = 6.2831854820251465, the
`float` closest to `2 * M_PI`.  That is not the `double` `2 * M_PI`, and not one full
turn: it is above 2π. -/
theorem horizontal_rotation_at_8_not_two_pi :
    time 8000 = 8 ∧
    twoStageRotationFloat (time 8000) = (13176795 / 2097152, 0) ∧
    (13176795 / 2097152 : ℚ) ≠ 2 * M_PI ∧
    2 * Real.pi < ((13176795 / 2097152 : ℚ) : ℝ) := by
  refine ⟨time_8000, ?_, ?_, held_angle_above_two_pi.1⟩
  · rw [time_8000, twoStageRotationFloat_eight]
  · rw [M_PI_eq]; norm_num

/-- C7 (amended): over exact arithmetic, with any value of the constant `M_PI`, the
two-stage rotation at elapsed time 8 s is `(2 * M_PI, 0)`, one full horizontal turn
and no vertical rotation, and at 16 s it is `(0, 0)`, the same as at 0 s.  As the code
computes it, at 8.0 s (8000 ms) the vertical rotation is 0 and the horizontal
rotation is the `float` closest to `2 * M_PI`, 13176795 / 2097152, which lies above 2π
by less than `2e-7`; at 16.0 s (16000 ms) both angles are what they are at 0.0 s,
namely 0. -/
theorem two_stage_rotation_at_8_and_16 {K : Type} [LinearOrderedField K] [FloorRing K]
    (M_PI : K) :
    twoStageRotation M_PI 8 = (2 * M_PI, 0) ∧
    twoStageRotation M_PI 16 = twoStageRotation M_PI 0 ∧
    twoStageRotation M_PI 0 = (0, 0) ∧
    (time 8000 = 8 ∧ time 16000 = 16 ∧ time 0 = 0) ∧
    twoStageRotationFloat (time 8000) = (toFloat (2 * LearnFilament.M_PI), 0) ∧
    toFloat (2 * LearnFilament.M_PI) = 13176795 / 2097152 ∧
    (2 * Real.pi < ((13176795 / 2097152 : ℚ) : ℝ) ∧
      ((13176795 / 2097152 : ℚ) : ℝ) < 2 * Real.pi + 2 / 10 ^ 7) ∧
    twoStageRotationFloat (time 16000) = twoStageRotationFloat (time 0) ∧
    twoStageRotationFloat (time 0) = (0, 0) := by
  obtain ⟨h1, h2, h3⟩ := twoStageRotation_at_8_and_16 M_PI
  refine ⟨h1, h2, h3, ⟨time_8000, time_16000, time_0⟩, ?_, toFloat_two_M_PI,
    held_angle_above_two_pi, ?_, ?_⟩
  · rw [time_8000, twoStageRotationFloat_eight, toFloat_two_M_PI]
  · rw [time_16000, time_0, twoStageRotationFloat_sixteen, twoStageRotationFloat_zero]
  · rw [time_0, twoStageRotationFloat_zero]

/-- C8, counterexample: at a count of 6283 ms the variable `time` is
13176406 / 2097152 = 6.2829999923706055, whose sine is -0.000185314808 to within
`1e-11`.  Whatever value within `1e-9` of it the library returns, and whether the
weight is formed in `double` or in `float`, the weights passed to `setMorphWeights` are
4195081 / 8388608 and 16774107 / 33554432, and their sum is `1 - 2 ^ (-25)`, not 1. -/
theorem morph_weights_sum_below_one :
    time 6283 = 13176406 / 2097152 ∧
    |Real.sin ((13176406 / 2097152 : ℚ) : ℝ) - (-185314808 / 10 ^ 12)| ≤ 1 / 10 ^ 11 ∧
    (∀ sin : ℚ → ℚ, |sin (time 6283) - (-185314808 / 10 ^ 12)| ≤ 1 / 10 ^ 9 →
      weightsFloat toDouble sin (time 6283) = (4195081 / 8388608, 16774107 / 33554432) ∧
      weightsFloat toFloat sin (time 6283) = (4195081 / 8388608, 16774107 / 33554432)) ∧
    (4195081 / 8388608 + 16774107 / 33554432 : ℚ) = 1 - 1 / 2 ^ 25 ∧
    (4195081 / 8388608 + 16774107 / 33554432 : ℚ) ≠ 1 :=
  ⟨time_6283, sin_6283, weightsFloat_6283, by norm_num, by norm_num⟩

/-- C8 (amended): over exact arithmetic the two morph weights `(1 - w, w)` with
`w = sin(t) / 2 + 0.5` sum to 1 at every elapsed time `t`.  As the code computes them,
for every count of milliseconds and every library sine with a value in `[-1, 1]`
there, whether the weight is formed in `double` or in `float`: the second weight is the
`float` `w`, the first is the `float` closest to `1 - w`, both lie in `[0, 1]`, and their
sum differs from 1 by at most `2 ^ (-25)`. -/
theorem morph_weights_sum_to_one {K : Type} [Field K] (sin : K → K) (t : K) :
    (weights sin t).1 + (weights sin t).2 = 1 ∧
    ∀ (sinF : ℚ → ℚ) (count : ℕ), |sinF (time count)| ≤ 1 →
      ((0 ≤ (weightsFloat toDouble sinF (time count)).1 ∧
          (weightsFloat toDouble sinF (time count)).1 ≤ 1) ∧
        (0 ≤ (weightsFloat toDouble sinF (time count)).2 ∧
          (weightsFloat toDouble sinF (time count)).2 ≤ 1) ∧
        |(weightsFloat toDouble sinF (time count)).1 +
          (weightsFloat toDouble sinF (time count)).2 - 1| ≤ 1 / 2 ^ 25) ∧
      ((0 ≤ (weightsFloat toFloat sinF (time count)).1 ∧
          (weightsFloat toFloat sinF (time count)).1 ≤ 1) ∧
        (0 ≤ (weightsFloat toFloat sinF (time count)).2 ∧
          (weightsFloat toFloat sinF (time count)).2 ≤ 1) ∧
        |(weightsFloat toFloat sinF (time count)).1 +
          (weightsFloat toFloat sinF (time count)).2 - 1| ≤ 1 / 2 ^ 25) := by
  refine ⟨weights_sum sin t, ?_⟩
  intro sinF count hs
  have key : ∀ (prec : ℕ) (emin : ℤ), 1 ≤ prec → emin ≤ -1 →
      (0 ≤ (weightsFloat (roundBinary prec emin) sinF (time count)).1 ∧
        (weightsFloat (roundBinary prec emin) sinF (time count)).1 ≤ 1) ∧
      (0 ≤ (weightsFloat (roundBinary prec emin) sinF (time count)).2 ∧
        (weightsFloat (roundBinary prec emin) sinF (time count)).2 ≤ 1) ∧
      |(weightsFloat (roundBinary prec emin) sinF (time count)).1 +
        (weightsFloat (roundBinary prec emin) sinF (time count)).2 - 1| ≤ 1 / 2 ^ 25 := by
    intro prec emin hp he
    obtain ⟨w0, w1⟩ := morphWeightFloat_bounds prec emin hp he sinF (time count) hs
    refine ⟨⟨?_, ?_⟩, ⟨w0, w1⟩, toFloat_one_sub _ w0 w1⟩
    · exact roundBinary_nonneg _ _ _ (by linarith)
    · have := roundBinary_le_two_pow 24 (-126) 0
        (1 - morphWeightFloat (roundBinary prec emin) sinF (time count)) (by norm_num)
        (by norm_num) (by linarith) (by norm_num; linarith)
      simpa using this
  exact ⟨key 53 (-1022) (by norm_num) (by norm_num), key 24 (-126) (by norm_num) (by norm_num)⟩

/-- C8, witness: a sine that returns 0 at a count of 0 ms, the weight formed in
`float`: the sum of the two weights is within `2 ^ (-25)` of 1. -/
theorem morph_weights_sum_to_one_witness :
    |(0 : ℚ)| ≤ 1 ∧
    |(weightsFloat toFloat (fun _ => 0) (time 0)).1 +
      (weightsFloat toFloat (fun _ => 0) (time 0)).2 - 1| ≤ 1 / 2 ^ 25 :=
  ⟨by norm_num,
    ((morph_weights_sum_to_one (fun _ : ℚ => 0) 0).2 (fun _ => 0) 0 (by norm_num)).2.2.2⟩

end LearnFilament
